import Mathlib

/-!
Verification of the FactCheckr MCP server core (claim-verification pipeline,
source adapters, conflict analyzer, verdict synthesizer, cache-first tool
handlers) against its natural-language specification.

The TypeScript source is shallowly embedded: pure computations become Lean
functions on `String`/`List`/`ℚ`; every call to an external system (HTTP
fetch, the generative model, the SQL store) is represented by an explicit
outcome value passed in as a parameter, so each theorem quantifies over all
behaviours of the external world.  JavaScript numbers are modelled as `ℚ`,
JavaScript string operations by executable char-list functions below.
-/

/-! ## String primitives (executable stand-ins for the JS string methods) -/

/-- Substring test on char lists: JS `String.prototype.includes`.
`listContains pat s` is true iff `pat` occurs contiguously in `s`. -/
def listContains (pat : List Char) : List Char → Bool
  | [] => pat.isEmpty
  | c :: tail => pat.isPrefixOf (c :: tail) || listContains pat tail

/-- JS `haystack.includes(needle)` on Lean strings. -/
def containsStr (s pat : String) : Bool :=
  listContains pat.data s.data

/-- JS `String.prototype.toLowerCase` (ASCII case folding). -/
def lowerStr (s : String) : String :=
  ⟨s.data.map Char.toLower⟩

/-- JS `s.startsWith(pre)`. -/
def startsWithStr (s pre : String) : Bool :=
  pre.data.isPrefixOf s.data

/-- JS `s.substring(0, n)`. -/
def takeStr (n : Nat) (s : String) : String :=
  ⟨s.data.take n⟩

/-- JS `s.trim()`. -/
def trimStr (s : String) : String :=
  ⟨((s.data.dropWhile Char.isWhitespace).reverse.dropWhile Char.isWhitespace).reverse⟩

/-- Split a char list at every occurrence of separator `c` (JS `s.split(c)`,
single-character separator, empty fields kept). -/
def splitCharList (c : Char) : List Char → List (List Char)
  | [] => [[]]
  | x :: xs =>
    if x = c then [] :: splitCharList c xs
    else
      match splitCharList c xs with
      | [] => [[x]]
      | g :: gs => (x :: g) :: gs

/-- JS `s.split(' ')`. -/
def splitSpaces (s : String) : List String :=
  (splitCharList ' ' s.data).map (fun l => ⟨l⟩)

/-- JS `s || d` for strings: `d` when `s` is empty (falsy), else `s`. -/
def jsOr (s d : String) : String :=
  if s = "" then d else s

/-- JS `s || d` where `s` may additionally be `undefined`. -/
def jsOrOpt (s : Option String) (d : String) : String :=
  match s with
  | none => d
  | some v => if v = "" then d else v

/-- Truthiness of an optional string (`undefined` and `""` are falsy). -/
def jsTruthy (s : Option String) : Bool :=
  match s with
  | none => false
  | some v => !(v = "")

/-- Remove `<...>` tag spans, as an automaton over the char list.  The flag
records whether the scan is inside a `<...>` span; the regex `/<[^>]*>/g`
consumes from each `<` up to the next `>`, and a `<` with no later `>` is
kept verbatim, exactly as the regex leaves it. -/
def stripTagsGo : Bool → List Char → List Char
  | _, [] => []
  | true, c :: cs => if c = '>' then stripTagsGo false cs else stripTagsGo true cs
  | false, c :: cs =>
    if c = '<' then
      if cs.any (fun d => d = '>') then stripTagsGo true cs else c :: cs
    else c :: stripTagsGo false cs

/-- JS `s.replace(/<[^>]*>/g, '')` on strings. -/
def stripTags (s : String) : String :=
  ⟨stripTagsGo false s.data⟩

/-- Byte-order comparison of strings, the SQLite TEXT collation used by the
store's `gte` / `ORDER BY` (codepoint order; agrees with byte order on the
ASCII timestamps and dates involved). -/
def charListLe : List Char → List Char → Bool
  | [], _ => true
  | _ :: _, [] => false
  | a :: as, b :: bs =>
    if a.toNat < b.toNat then true
    else if b.toNat < a.toNat then false
    else charListLe as bs

/-- String comparison `a <= b` in store collation order. -/
def strLeB (a b : String) : Bool :=
  charListLe a.data b.data

/-- Hex digit for percent-encoding. -/
def hexDigit (n : Nat) : Char :=
  if n < 10 then Char.ofNat (48 + n) else Char.ofNat (55 + (n - 10))

/-- JS `encodeURIComponent` on one character (unreserved chars kept,
others percent-encoded from their code). -/
def encodeChar (c : Char) : List Char :=
  if c.isAlphanum || c = '-' || c = '_' || c = '.' || c = '!' || c = '~' ||
      c = '*' || c = Char.ofNat 39 || c = '(' || c = ')' then [c]
  else ['%', hexDigit (c.toNat / 16 % 16), hexDigit (c.toNat % 16)]

/-- JS `encodeURIComponent`. -/
def encodeURIComponent (s : String) : String :=
  ⟨(s.data.map encodeChar).flatten⟩

/-! ## Data model

Mirrors the TypeScript interfaces `ExternalFactCheckResult` and
`FactCheckResult` with JS numbers as `ℚ` and the optional `verdict` field as
`Option String`. -/

/-- One normalized evidence record produced by a source adapter
(TS `ExternalFactCheckResult`). -/
structure ExternalFactCheckResult where
  source : String
  verdict : Option String
  summary : String
  url : String
  confidence : ℚ

/-- The synthesized verdict (TS `FactCheckResult`); `status` ranges over
`"true" | "false" | "mixed" | "unverified"` in the source. -/
structure FactCheckResult where
  status : String
  confidence : ℚ
  sources : List String
  reasoning : String

/-- Result of `analyzeSourceConflicts`. -/
structure ConflictAnalysis where
  hasConflicts : Bool
  conflictSummary : String

/-! ## Conflict analyzer (TS `analyzeSourceConflicts`) -/

/-- The case-folded explicit verdict labels of the evidence records
(TS `results.filter(r => r.verdict).map(r => r.verdict!.toLowerCase())`;
`undefined` and `""` are falsy and filtered out). -/
def explicitVerdicts (results : List ExternalFactCheckResult) : List String :=
  results.filterMap fun r =>
    match r.verdict with
    | some v => if v = "" then none else some (lowerStr v)
    | none => none

/-- The directional antonym test the inner double loop applies to the pair
`(results[i], results[j])` with `i < j`: the earlier summary must contain the
first word of the antonym pair and the later summary the second. -/
def pairConflict (a b : ExternalFactCheckResult) : Bool :=
  let s1 := lowerStr a.summary
  let s2 := lowerStr b.summary
  (containsStr s1 "won" && containsStr s2 "lost") ||
  (containsStr s1 "true" && containsStr s2 "false") ||
  (containsStr s1 "yes" && containsStr s2 "no")

/-- The list of `"<sourceA> vs <sourceB>"` strings accumulated by the double
loop over index pairs `i < j`, in loop order. -/
def conflictPairsList : List ExternalFactCheckResult → List String
  | [] => []
  | r :: rest =>
    ((rest.filter fun r2 => pairConflict r r2).map
      fun r2 => r.source ++ " vs " ++ r2.source) ++ conflictPairsList rest

/-- TS `analyzeSourceConflicts`: fewer than 2 records is never a conflict;
step 1 checks explicit verdict labels for a "true"/"false" co-occurrence;
step 2 scans ordered summary pairs for antonym co-occurrence. -/
def analyzeSourceConflicts (results : List ExternalFactCheckResult) : ConflictAnalysis :=
  if results.length < 2 then
    { hasConflicts := false, conflictSummary := "" }
  else
    let verdicts := explicitVerdicts results
    let hasTrue := verdicts.any fun v => containsStr v "true"
    let hasFalse := verdicts.any fun v => containsStr v "false"
    if hasTrue && hasFalse then
      { hasConflicts := true
        conflictSummary := "Sources provide conflicting verdicts (some say true, others say false)" }
    else
      let conflicts := conflictPairsList results
      { hasConflicts := !conflicts.isEmpty
        conflictSummary :=
          if conflicts.isEmpty then ""
          else "Conflicting information between: " ++ String.intercalate ", " conflicts }

/-! ## Verdict synthesizer (the part of TS `verifyClaim` from the conflict
analysis to the returned `FactCheckResult`) -/

/-- The shape of a successfully `JSON.parse`d model payload; each field is
optional because the model's JSON need not carry it (JS falsy fallbacks are
applied at use sites). -/
structure ParsedFactCheck where
  status : Option String
  confidence : Option ℚ
  sources : Option (List String)
  reasoning : Option String

/-- Behaviour of the generative-model call plus the `JSON.parse` attempt on
its output: the call throws, or returns text that fails to parse, or returns
text parsing to a payload. -/
inductive ModelOutcome where
  | failure (msg : String)
  | malformed (text : String)
  | parsed (p : ParsedFactCheck)

/-- TS source-merging loop: start from the model-reported sources and append
each evidence URL not already present (first-seen order preserved). -/
def mergeSources (modelSources : List String)
    (evidence : List ExternalFactCheckResult) : List String :=
  evidence.foldl
    (fun acc r => if acc.contains r.url then acc else acc ++ [r.url])
    modelSources

/-- TS specialized-source test: the record's source name mentions one of the
domain-specific adapters. -/
def isSpecializedSource (r : ExternalFactCheckResult) : Bool :=
  containsStr r.source "Liquipedia" || containsStr r.source "ESPN" ||
  containsStr r.source "TheSportsDB" || containsStr r.source "PubMed" ||
  containsStr r.source "WHO" || containsStr r.source "SEC EDGAR" ||
  containsStr r.source "arXiv"

/-- TS `externalResults.find(r => r.source === "Snopes" && r.verdict)`
converted to a Boolean: some Snopes record carries a truthy verdict label. -/
def snopesWithVerdict (evidence : List ExternalFactCheckResult) : Bool :=
  evidence.any fun r => r.source == "Snopes" && jsTruthy r.verdict

/-- Mean of the evidence confidences
(TS `reduce((sum, r) => sum + r.confidence, 0) / length`). -/
def avgEvidenceConfidence (evidence : List ExternalFactCheckResult) : ℚ :=
  (evidence.map (fun r => r.confidence)).sum / (evidence.length : ℚ)

/-- The tail of TS `verifyClaim` (lines after evidence collection): runs the
conflict analysis, then produces the final `FactCheckResult` from the model
outcome — the degraded fallbacks on model failure / malformed output, and on
the success path the source merge and the ordered confidence adjustments
(a) evidence-mean floor, (b) conflict dampening, (c) specialized-source
floor, (d) fact-check-verdict floor, then the clamp to [0,1]. -/
def synthesizeVerdict (_claim : String) (_context : Option String)
    (externalResults : List ExternalFactCheckResult)
    (model : ModelOutcome) : FactCheckResult :=
  let conflictAnalysis := analyzeSourceConflicts externalResults
  match model with
  | .failure msg =>
    { status := "unverified"
      confidence := if externalResults.length > 0 then (4 : ℚ)/10 else 0
      sources := externalResults.map fun r => r.url
      reasoning := "Error during verification: " ++ msg }
  | .malformed text =>
    { status := "unverified"
      confidence := if externalResults.length > 0 then (6 : ℚ)/10 else (3 : ℚ)/10
      sources := externalResults.map fun r => r.url
      reasoning := jsOr text "Unable to verify claim" }
  | .parsed p =>
    let allSources := mergeSources (p.sources.getD []) externalResults
    let c0 : ℚ := p.confidence.getD 0
    let c1 :=
      if externalResults.length > 0 then
        max c0 (avgEvidenceConfidence externalResults * ((8 : ℚ)/10))
      else c0
    let c2 :=
      if conflictAnalysis.hasConflicts then max ((3 : ℚ)/10) (c1 * ((7 : ℚ)/10))
      else c1
    let c3 :=
      if externalResults.any isSpecializedSource && !conflictAnalysis.hasConflicts then
        max c2 ((85 : ℚ)/100)
      else c2
    let c4 :=
      if snopesWithVerdict externalResults && !conflictAnalysis.hasConflicts then
        max c3 ((9 : ℚ)/10)
      else c3
    { status := jsOrOpt p.status "unverified"
      confidence := max 0 (min 1 c4)
      sources := allSources
      reasoning := jsOrOpt p.reasoning "No reasoning provided" }

/-! ## Source adapters

Each TS adapter wraps its whole body in `try { ... } catch { return null }`.
The external system's behaviour is an explicit `FetchResult` value: the
`fetch` call itself may throw (`netFail`), the response may be non-OK
(`notOk`), reading/parsing the body (`response.json()` / `response.text()`)
may throw (`badBody`), or a payload is obtained (`ok`).  An adapter body is
an `Except`: `.error` marks a JS exception raised inside the `try` block,
which the adapter's own `catch` turns into `none` (`adapterCatch`). -/

/-- Behaviour of one outbound `fetch` as observed by an adapter. -/
inductive FetchResult (α : Type) where
  | netFail (msg : String)
  | notOk
  | badBody (msg : String)
  | ok (payload : α)

/-- The `catch` wrapper every adapter ends with: a JS exception inside the
`try` block becomes a "no match" result. -/
def adapterCatch (body : Except String (Option ExternalFactCheckResult)) :
    Option ExternalFactCheckResult :=
  match body with
  | .ok r => r
  | .error _ => none

/-- Fields of the Wikipedia summary payload the adapter reads. -/
structure WikipediaPayload where
  extract : Option String
  contentUrl : Option String

/-- TS `searchWikipedia` body inside the `try`. -/
def searchWikipediaBody (query : String) (f : FetchResult WikipediaPayload) :
    Except String (Option ExternalFactCheckResult) :=
  let cleanQuery := trimStr ⟨query.data.filter fun c => c.isAlphanum || c = '_' || c.isWhitespace⟩
  let encodedQuery := encodeURIComponent cleanQuery
  match f with
  | .netFail m => .error m
  | .notOk => .ok none
  | .badBody m => .error m
  | .ok data =>
    .ok (some
      { source := "Wikipedia"
        verdict := none
        summary := jsOrOpt data.extract "No summary available"
        url := jsOrOpt data.contentUrl ("https://en.wikipedia.org/wiki/" ++ encodedQuery)
        confidence := (8 : ℚ)/10 })

/-- TS `searchWikipedia` with its `catch`. -/
def searchWikipedia (query : String) (f : FetchResult WikipediaPayload) :
    Option ExternalFactCheckResult :=
  adapterCatch (searchWikipediaBody query f)

/-- Fields of the DuckDuckGo instant-answer payload the adapter reads
(missing JSON fields modelled as the falsy `""`). -/
structure DuckDuckGoPayload where
  answer : String
  abstractText : String
  abstractSource : String
  abstractURL : String

/-- TS `searchDuckDuckGo` body inside the `try`. -/
def searchDuckDuckGoBody (_query : String) (f : FetchResult DuckDuckGoPayload) :
    Except String (Option ExternalFactCheckResult) :=
  match f with
  | .netFail m => .error m
  | .notOk => .ok none
  | .badBody m => .error m
  | .ok data =>
    if !(data.answer = "") && !(trimStr data.answer = "") then
      .ok (some
        { source := "DuckDuckGo Instant Answer"
          verdict := none
          summary := data.answer
          url := jsOr data.abstractURL "https://duckduckgo.com"
          confidence := (7 : ℚ)/10 })
    else if !(data.abstractText = "") && !(trimStr data.abstractText = "") then
      .ok (some
        { source := "DuckDuckGo (" ++ jsOr data.abstractSource "Various Sources" ++ ")"
          verdict := none
          summary := data.abstractText
          url := jsOr data.abstractURL "https://duckduckgo.com"
          confidence := (6 : ℚ)/10 })
    else .ok none

/-- TS `searchDuckDuckGo` with its `catch`. -/
def searchDuckDuckGo (query : String) (f : FetchResult DuckDuckGoPayload) :
    Option ExternalFactCheckResult :=
  adapterCatch (searchDuckDuckGoBody query f)

/-- One `<item>` of an RSS feed after the regex field extraction (title,
description, link; missing matches yield `""` in the source). -/
structure RssItem where
  title : String
  description : String
  link : String

/-- Query words longer than 3 characters
(TS `query.toLowerCase().split(' ').filter(word => word.length > 3)`). -/
def queryWordsOf (query : String) : List String :=
  (splitSpaces (lowerStr query)).filter fun w => w.length > 3

/-- The shared feed-matching heuristic: at least `min(2, wordCount)` query
words must occur in the item's combined lowercased title+description. -/
def feedItemMatches (queryWords : List String) (it : RssItem) : Bool :=
  let content := lowerStr (it.title ++ " " ++ it.description)
  (queryWords.filter fun word => containsStr content word).length ≥ min 2 queryWords.length

/-- The Snopes verdict-extraction heuristic on an item description. -/
def snopesVerdictOf (description : String) : String :=
  let d := lowerStr description
  if containsStr d "false" || containsStr d "fake" then "False"
  else if containsStr d "true" || containsStr d "correct" then "True"
  else if containsStr d "mixture" || containsStr d "mixed" then "Mixed"
  else ""

/-- Scan of the first Snopes feed items for a query match
(TS loop over `items.slice(0, 10)`). -/
def snopesScan (queryWords : List String) : List RssItem → Option ExternalFactCheckResult
  | [] => none
  | it :: rest =>
    if feedItemMatches queryWords it then
      let verdict := snopesVerdictOf it.description
      some
        { source := "Snopes"
          verdict := if verdict = "" then none else some verdict
          summary := takeStr 300 (stripTags it.description) ++ "..."
          url := it.link
          confidence := (9 : ℚ)/10 }
    else snopesScan queryWords rest

/-- TS `searchSnopes` body inside the `try`. -/
def searchSnopesBody (query : String) (f : FetchResult (List RssItem)) :
    Except String (Option ExternalFactCheckResult) :=
  match f with
  | .netFail m => .error m
  | .notOk => .ok none
  | .badBody m => .error m
  | .ok items => .ok (snopesScan (queryWordsOf query) (items.take 10))

/-- TS `searchSnopes` with its `catch`. -/
def searchSnopes (query : String) (f : FetchResult (List RssItem)) :
    Option ExternalFactCheckResult :=
  adapterCatch (searchSnopesBody query f)

/-- One binding of the Wikidata SPARQL response (missing values are the
falsy `""` via `?.value || ""`). -/
structure WikidataBinding where
  itemLabel : String
  description : String
  itemUri : String

/-- TS `queryWikidata` body inside the `try`. -/
def queryWikidataBody (_query : String) (f : FetchResult (List WikidataBinding)) :
    Except String (Option ExternalFactCheckResult) :=
  match f with
  | .netFail m => .error m
  | .notOk => .ok none
  | .badBody m => .error m
  | .ok bindings =>
    match bindings with
    | [] => .ok none
    | b :: _ =>
      .ok (some
        { source := "Wikidata"
          verdict := none
          summary := b.itemLabel ++ ": " ++ b.description
          url := b.itemUri
          confidence := (8 : ℚ)/10 })

/-- TS `queryWikidata` with its `catch`. -/
def queryWikidata (query : String) (f : FetchResult (List WikidataBinding)) :
    Option ExternalFactCheckResult :=
  adapterCatch (queryWikidataBody query f)

/-- TS game detection in `searchLiquipedia`. -/
def detectGame (query : String) : Option String :=
  let l := lowerStr query
  if containsStr l "cs:go" || containsStr l "counter-strike" || containsStr l "stockholm major" then
    some "counterstrike"
  else if containsStr l "dota" || containsStr l "international" then some "dota2"
  else if containsStr l "league" || containsStr l "worlds" || containsStr l "lol" then
    some "leagueoflegends"
  else if containsStr l "valorant" then some "valorant"
  else none

/-- The Liquipedia opensearch payload: parallel title/description/url arrays. -/
structure LiquipediaPayload where
  titles : List String
  descriptions : List String
  urls : List String

/-- The TS index loop over Liquipedia titles looking for a tournament page. -/
def liquipediaScan (game : String) (descriptions urls : List String) :
    Nat → List String → Option ExternalFactCheckResult
  | _, [] => none
  | i, title :: rest =>
    let tl := lowerStr title
    if containsStr tl "major" || containsStr tl "championship" ||
        containsStr tl "tournament" || containsStr tl "2021" then
      some
        { source := "Liquipedia (" ++ game ++ ")"
          verdict := none
          summary := title ++ ": " ++ descriptions.getD i ""
          url := urls.getD i ""
          confidence := (85 : ℚ)/100 }
    else liquipediaScan game descriptions urls (i + 1) rest

/-- TS `searchLiquipedia` body inside the `try` (no game keyword means no
fetch at all). -/
def searchLiquipediaBody (query : String) (f : FetchResult LiquipediaPayload) :
    Except String (Option ExternalFactCheckResult) :=
  match detectGame query with
  | none => .ok none
  | some game =>
    match f with
    | .netFail m => .error m
    | .notOk => .ok none
    | .badBody m => .error m
    | .ok data =>
      match data.titles with
      | [] => .ok none
      | titles => .ok (liquipediaScan game data.descriptions data.urls 0 titles)

/-- TS `searchLiquipedia` with its `catch`. -/
def searchLiquipedia (query : String) (f : FetchResult LiquipediaPayload) :
    Option ExternalFactCheckResult :=
  adapterCatch (searchLiquipediaBody query f)

/-- Scan of the first ESPN feed items (TS loop over `items.slice(0, 10)`). -/
def espnScan (queryWords : List String) : List RssItem → Option ExternalFactCheckResult
  | [] => none
  | it :: rest =>
    if feedItemMatches queryWords it then
      some
        { source := "ESPN Sports News"
          verdict := none
          summary := it.title ++ ": " ++ takeStr 200 (stripTags it.description) ++ "..."
          url := it.link
          confidence := (75 : ℚ)/100 }
    else espnScan queryWords rest

/-- TS `searchESPN` body inside the `try`. -/
def searchESPNBody (query : String) (f : FetchResult (List RssItem)) :
    Except String (Option ExternalFactCheckResult) :=
  match f with
  | .netFail m => .error m
  | .notOk => .ok none
  | .badBody m => .error m
  | .ok items => .ok (espnScan (queryWordsOf query) (items.take 10))

/-- TS `searchESPN` with its `catch`. -/
def searchESPN (query : String) (f : FetchResult (List RssItem)) :
    Option ExternalFactCheckResult :=
  adapterCatch (searchESPNBody query f)

/-- One event of the TheSportsDB search payload. -/
structure SportsEvent where
  strEvent : String
  strHomeTeam : String
  strAwayTeam : String
  dateEvent : String
  idEvent : String

/-- TS `searchSportsDB` body inside the `try`. -/
def searchSportsDBBody (_query : String) (f : FetchResult (List SportsEvent)) :
    Except String (Option ExternalFactCheckResult) :=
  match f with
  | .netFail m => .error m
  | .notOk => .ok none
  | .badBody m => .error m
  | .ok events =>
    match events with
    | [] => .ok none
    | e :: _ =>
      .ok (some
        { source := "TheSportsDB"
          verdict := none
          summary := e.strEvent ++ ": " ++ e.strHomeTeam ++ " vs " ++ e.strAwayTeam ++
            " on " ++ e.dateEvent
          url := "https://www.thesportsdb.com/event/" ++ e.idEvent
          confidence := (8 : ℚ)/10 })

/-- TS `searchSportsDB` with its `catch`. -/
def searchSportsDB (query : String) (f : FetchResult (List SportsEvent)) :
    Option ExternalFactCheckResult :=
  adapterCatch (searchSportsDBBody query f)

/-- Fields of a PubMed esummary article the adapter reads. -/
structure PubMedArticle where
  title : String
  authors : List String
  pubdate : String
  source : String

/-- TS `searchPubMed` body inside the `try` (two sequential fetches: the
esearch id list, then the esummary detail; the detail payload is `none` when
`result[pmid]` is missing). -/
def searchPubMedBody (_query : String) (f1 : FetchResult (List String))
    (f2 : FetchResult (Option PubMedArticle)) :
    Except String (Option ExternalFactCheckResult) :=
  match f1 with
  | .netFail m => .error m
  | .notOk => .ok none
  | .badBody m => .error m
  | .ok pmids =>
    match pmids with
    | [] => .ok none
    | pmid :: _ =>
      match f2 with
      | .netFail m => .error m
      | .notOk => .ok none
      | .badBody m => .error m
      | .ok none => .ok none
      | .ok (some article) =>
        .ok (some
          { source := "PubMed/NCBI"
            verdict := none
            summary := article.title ++ " - " ++
              jsOrOpt article.authors.head? "Unknown author" ++ " et al. (" ++
              article.pubdate ++ ") - " ++ article.source
            url := "https://pubmed.ncbi.nlm.nih.gov/" ++ pmid ++ "/"
            confidence := (9 : ℚ)/10 })

/-- TS `searchPubMed` with its `catch`. -/
def searchPubMed (query : String) (f1 : FetchResult (List String))
    (f2 : FetchResult (Option PubMedArticle)) : Option ExternalFactCheckResult :=
  adapterCatch (searchPubMedBody query f1 f2)

/-- Scan of the first WHO feed items (TS loop over `items.slice(0, 10)`). -/
def whoScan (queryWords : List String) : List RssItem → Option ExternalFactCheckResult
  | [] => none
  | it :: rest =>
    if feedItemMatches queryWords it then
      some
        { source := "World Health Organization (WHO)"
          verdict := none
          summary := it.title ++ ": " ++ takeStr 200 (stripTags it.description) ++ "..."
          url := it.link
          confidence := (95 : ℚ)/100 }
    else whoScan queryWords rest

/-- TS `searchWHO` body inside the `try`. -/
def searchWHOBody (query : String) (f : FetchResult (List RssItem)) :
    Except String (Option ExternalFactCheckResult) :=
  match f with
  | .netFail m => .error m
  | .notOk => .ok none
  | .badBody m => .error m
  | .ok items => .ok (whoScan (queryWordsOf query) (items.take 10))

/-- TS `searchWHO` with its `catch`. -/
def searchWHO (query : String) (f : FetchResult (List RssItem)) :
    Option ExternalFactCheckResult :=
  adapterCatch (searchWHOBody query f)

/-- One `<entry>` of the SEC EDGAR atom feed after field extraction. -/
structure AtomEntry where
  title : String
  summary : String
  link : String

/-- TS `searchSEC` body inside the `try`. -/
def searchSECBody (_query : String) (f : FetchResult (List AtomEntry)) :
    Except String (Option ExternalFactCheckResult) :=
  match f with
  | .netFail m => .error m
  | .notOk => .ok none
  | .badBody m => .error m
  | .ok entries =>
    match entries with
    | [] => .ok none
    | e :: _ =>
      .ok (some
        { source := "SEC EDGAR Database"
          verdict := none
          summary := e.title ++ ": " ++ takeStr 200 (stripTags e.summary) ++ "..."
          url := if startsWithStr e.link "http" then e.link else "https://www.sec.gov" ++ e.link
          confidence := (9 : ℚ)/10 })

/-- TS `searchSEC` with its `catch`. -/
def searchSEC (query : String) (f : FetchResult (List AtomEntry)) :
    Option ExternalFactCheckResult :=
  adapterCatch (searchSECBody query f)

/-- One `<entry>` of the arXiv API response after field extraction. -/
structure ArxivEntry where
  title : String
  summary : String
  authors : List String
  arxivId : String

/-- TS `searchArXiv` body inside the `try`. -/
def searchArXivBody (_query : String) (f : FetchResult (List ArxivEntry)) :
    Except String (Option ExternalFactCheckResult) :=
  match f with
  | .netFail m => .error m
  | .notOk => .ok none
  | .badBody m => .error m
  | .ok entries =>
    match entries with
    | [] => .ok none
    | e :: _ =>
      .ok (some
        { source := "arXiv Preprint Server"
          verdict := none
          summary := trimStr e.title ++ " - " ++
            String.intercalate ", " (e.authors.take 3) ++ " - " ++
            takeStr 200 (trimStr e.summary) ++ "..."
          url := "https://arxiv.org/abs/" ++ e.arxivId
          confidence := (8 : ℚ)/10 })

/-- TS `searchArXiv` with its `catch`. -/
def searchArXiv (query : String) (f : FetchResult (List ArxivEntry)) :
    Option ExternalFactCheckResult :=
  adapterCatch (searchArXivBody query f)

/-! ## Claim classification and evidence collection (first half of TS
`verifyClaim`) -/

/-- TS `isEsports` keyword detection. -/
def isEsportsClaim (claim : String) : Bool :=
  let l := lowerStr claim
  containsStr l "major" || containsStr l "tournament" || containsStr l "cs:go" ||
  containsStr l "dota" || containsStr l "league" || containsStr l "valorant" ||
  containsStr l "esports" || containsStr l "gaming"

/-- TS `isSports` keyword detection. -/
def isSportsClaim (claim : String) : Bool :=
  let l := lowerStr claim
  containsStr l "championship" || containsStr l "world cup" || containsStr l "olympics" ||
  containsStr l "nfl" || containsStr l "nba" || containsStr l "football" ||
  containsStr l "soccer" || containsStr l "baseball"

/-- TS `isMedical` keyword detection. -/
def isMedicalClaim (claim : String) : Bool :=
  let l := lowerStr claim
  containsStr l "health" || containsStr l "medicine" || containsStr l "disease" ||
  containsStr l "vaccine" || containsStr l "drug" || containsStr l "treatment" ||
  containsStr l "vitamin" || containsStr l "cancer" || containsStr l "covid" ||
  containsStr l "medical"

/-- TS `isFinancial` keyword detection. -/
def isFinancialClaim (claim : String) : Bool :=
  let l := lowerStr claim
  containsStr l "stock" || containsStr l "market" || containsStr l "sec" ||
  containsStr l "earnings" || containsStr l "revenue" || containsStr l "profit" ||
  containsStr l "company" || containsStr l "financial"

/-- TS `isScientific` keyword detection. -/
def isScientificClaim (claim : String) : Bool :=
  let l := lowerStr claim
  containsStr l "research" || containsStr l "study" || containsStr l "science" ||
  containsStr l "experiment" || containsStr l "theory" || containsStr l "discovery" ||
  containsStr l "climate" || containsStr l "physics"

/-- The behaviour of every external fetch one `verifyClaim` run can make. -/
structure AdapterEnv where
  wikipedia : FetchResult WikipediaPayload
  duckduckgo : FetchResult DuckDuckGoPayload
  snopes : FetchResult (List RssItem)
  liquipedia : FetchResult LiquipediaPayload
  espn : FetchResult (List RssItem)
  sportsdb : FetchResult (List SportsEvent)
  pubmedSearch : FetchResult (List String)
  pubmedDetail : FetchResult (Option PubMedArticle)
  who : FetchResult (List RssItem)
  sec : FetchResult (List AtomEntry)
  arxiv : FetchResult (List ArxivEntry)
  wikidata : FetchResult (List WikidataBinding)

/-- TS `if (x) externalResults.push(x)`. -/
def pushOpt (acc : List ExternalFactCheckResult) (r : Option ExternalFactCheckResult) :
    List ExternalFactCheckResult :=
  match r with
  | some x => acc ++ [x]
  | none => acc

/-- The evidence-collection phase of TS `verifyClaim`: the three general
sources first, then the tag-selected specialized sources, then Wikidata
last, each contributing at most one record in this fixed order. -/
def collectEvidence (claim : String) (env : AdapterEnv) : List ExternalFactCheckResult :=
  let base :=
    pushOpt (pushOpt (pushOpt [] (searchWikipedia claim env.wikipedia))
      (searchDuckDuckGo claim env.duckduckgo)) (searchSnopes claim env.snopes)
  let e1 := if isEsportsClaim claim then pushOpt base (searchLiquipedia claim env.liquipedia)
    else base
  let e2 := if isSportsClaim claim then
      pushOpt (pushOpt e1 (searchESPN claim env.espn)) (searchSportsDB claim env.sportsdb)
    else e1
  let e3 := if isMedicalClaim claim then
      pushOpt (pushOpt e2 (searchPubMed claim env.pubmedSearch env.pubmedDetail))
        (searchWHO claim env.who)
    else e2
  let e4 := if isFinancialClaim claim then pushOpt e3 (searchSEC claim env.sec) else e3
  let e5 := if isScientificClaim claim then pushOpt e4 (searchArXiv claim env.arxiv) else e4
  pushOpt e5 (queryWikidata claim env.wikidata)

/-- TS `verifyClaim`: collect evidence, then synthesize the verdict from the
generative-model outcome. -/
def verifyClaim (claim : String) (context : Option String) (env : AdapterEnv)
    (model : ModelOutcome) : FactCheckResult :=
  synthesizeVerdict claim context (collectEvidence claim env) model

/-! ## Store rows and keyed lookups (D1 tables and the drizzle queries) -/

/-- A row of the `fact_checks` table (columns the handlers read/write). -/
structure FactCheckRow where
  claimText : String
  verificationStatus : String
  confidenceScore : ℚ
  sources : List String
  reasoning : String
  createdAt : String

/-- A trending-claims item of a daily digest. -/
structure TrendingItem where
  topic : String
  description : String

/-- A row of the `webpage_analyses` table. -/
structure WebpageAnalysisRow where
  url : String
  title : String
  summary : String
  claimsExtracted : List String
  overallCredibility : String
  factCheckResults : List (String × FactCheckResult)
  analyzedAt : String

/-- A row of the `daily_digests` table. -/
structure DailyDigestRow where
  digestDate : String
  trendingClaims : List TrendingItem
  summary : String
  generatedAt : String

/-- The persistent store (the three D1 tables), rows in insertion order. -/
structure Database where
  factChecks : List FactCheckRow
  webpageAnalyses : List WebpageAnalysisRow
  dailyDigests : List DailyDigestRow

/-- Insert into a descending-ordered list by key (used to model
`ORDER BY key DESC`). -/
def insertDescBy {α : Type} (key : α → String) (x : α) : List α → List α
  | [] => [x]
  | y :: ys => if strLeB (key y) (key x) then x :: y :: ys else y :: insertDescBy key x ys

/-- Sort a list descending by a string key (models `ORDER BY key DESC`;
SQLite leaves tie order unspecified, this model keeps ties stable). -/
def sortDescBy {α : Type} (key : α → String) : List α → List α
  | [] => []
  | x :: xs => insertDescBy key x (sortDescBy key xs)

/-- The `verify_claim` cached lookup: rows with this exact claim text,
most recent `createdAt` first, limit 1. -/
def findVerdictByClaim (rows : List FactCheckRow) (claim : String) : Option FactCheckRow :=
  (sortDescBy (fun r => r.createdAt) (rows.filter fun r => r.claimText == claim)).head?

/-- The `analyze_webpage` cached lookup: rows with this URL, limit 1. -/
def findAnalysisByUrl (rows : List WebpageAnalysisRow) (url : String) :
    Option WebpageAnalysisRow :=
  (rows.filter fun r => r.url == url).head?

/-- The `generate_daily_digest` cached lookup: rows with this date, limit 1. -/
def findDigestByDate (rows : List DailyDigestRow) (date : String) : Option DailyDigestRow :=
  (rows.filter fun r => r.digestDate == date).head?

/-- The digest's fact-check aggregation query:
`WHERE createdAt >= targetDate ORDER BY createdAt DESC LIMIT 20`. -/
def recentFactChecks (rows : List FactCheckRow) (targetDate : String) : List FactCheckRow :=
  (sortDescBy (fun r => r.createdAt)
    (rows.filter fun r => strLeB targetDate r.createdAt)).take 20

/-- The digest's webpage-analysis aggregation query:
`WHERE analyzedAt >= targetDate ORDER BY analyzedAt DESC LIMIT 10`. -/
def recentWebpageAnalyses (rows : List WebpageAnalysisRow) (targetDate : String) :
    List WebpageAnalysisRow :=
  (sortDescBy (fun r => r.analyzedAt)
    (rows.filter fun r => strLeB targetDate r.analyzedAt)).take 10

/-! ## Tool handlers (cache-first wrappers)

Each handler is modelled as a state transformer on the `Database` that also
reports the external work it performed as a list of `Effect`s; a cache hit
must report no effects at all. -/

/-- External work a handler can perform. -/
inductive Effect where
  | adapterQuery
  | modelCall
  | pageFetch
  | insertRow
deriving DecidableEq

/-- Outcome of one tool invocation: the response value, the store afterwards,
and the external work performed. -/
structure ToolOutcome (ρ : Type) where
  result : ρ
  db : Database
  effects : List Effect

/-- Projection of a cached `fact_checks` row into the response fields the
`verify_claim` handler renders (status, confidence, sources, reasoning). -/
def rowToResult (row : FactCheckRow) : FactCheckResult :=
  { status := row.verificationStatus
    confidence := row.confidenceScore
    sources := row.sources
    reasoning := row.reasoning }

/-- The row the `verify_claim` handler inserts on a cache miss. -/
def mkFactCheckRow (claim : String) (result : FactCheckResult) (now : String) :
    FactCheckRow :=
  { claimText := claim
    verificationStatus := result.status
    confidenceScore := result.confidence
    sources := result.sources
    reasoning := result.reasoning
    createdAt := now }

/-- The external work of one full `verifyClaim` pipeline run: one query per
selected adapter (three general, the tag-selected specialized ones, then
Wikidata) followed by the generative-model call. -/
def verifyPipelineEffects (claim : String) : List Effect :=
  List.replicate
    (4 + (if isEsportsClaim claim then 1 else 0) + (if isSportsClaim claim then 2 else 0) +
      (if isMedicalClaim claim then 2 else 0) + (if isFinancialClaim claim then 1 else 0) +
      (if isScientificClaim claim then 1 else 0))
    Effect.adapterQuery ++ [Effect.modelCall]

/-- The `verify_claim` tool handler: cache-first on the claim text, else run
the pipeline, insert, and return the fresh result. -/
def verifyClaimTool (db : Database) (claim : String) (context : Option String)
    (env : AdapterEnv) (model : ModelOutcome) (now : String) :
    ToolOutcome FactCheckResult :=
  match findVerdictByClaim db.factChecks claim with
  | some row => ⟨rowToResult row, db, []⟩
  | none =>
    let result := verifyClaim claim context env model
    ⟨result, { db with factChecks := db.factChecks ++ [mkFactCheckRow claim result now] },
      verifyPipelineEffects claim ++ [Effect.insertRow]⟩

/-- Scraped webpage content (TS `WebpageContent`). -/
structure WebpageContent where
  title : String
  content : String
  url : String

/-- Outcome of the claim-extraction model call plus its JSON parse: the model
returned a JSON array of strings, or some non-array text (both a non-array
parse and a parse failure collapse to `[claimsResponse]` in the source). -/
inductive ClaimsExtraction where
  | arr (claims : List String)
  | nonArr (text : String)

/-- The claim list the handler works with after the fallbacks. -/
def extractedClaimsOf (ext : ClaimsExtraction) : List String :=
  match ext with
  | .arr claims => claims
  | .nonArr text => [text]

/-- TS credibility bucketing of the mean per-claim confidence. -/
def bucketCredibility (avgConfidence : ℚ) : String :=
  if avgConfidence ≥ (8 : ℚ)/10 then "high"
  else if avgConfidence ≥ (6 : ℚ)/10 then "medium"
  else if avgConfidence ≥ (3 : ℚ)/10 then "low"
  else "unknown"

/-- The per-claim fact-check loop of `analyze_webpage`: only the first three
extracted claims are verified (TS `extractedClaims.slice(0, 3)`), each with
the webpage title as context. -/
def webpageFactCheckResults (extractedClaims : List String) (title : String)
    (envOf : String → AdapterEnv) (modelOf : String → ModelOutcome) :
    List (String × FactCheckResult) :=
  (extractedClaims.take 3).map fun c =>
    (c, verifyClaim c (some ("From webpage: " ++ title)) (envOf c) (modelOf c))

/-- The row the `analyze_webpage` handler builds and inserts on a cache miss
(after a successful scrape, extraction and summary call). -/
def mkWebpageAnalysisRow (url : String) (webContent : WebpageContent)
    (ext : ClaimsExtraction) (envOf : String → AdapterEnv)
    (modelOf : String → ModelOutcome) (summaryText : String) (now : String) :
    WebpageAnalysisRow :=
  let extractedClaims := extractedClaimsOf ext
  let factCheckResults := webpageFactCheckResults extractedClaims webContent.title envOf modelOf
  let avgConfidence :=
    (factCheckResults.map fun pr => pr.2.confidence).sum / (factCheckResults.length : ℚ)
  { url := url
    title := webContent.title
    summary := summaryText
    claimsExtracted := extractedClaims
    overallCredibility := bucketCredibility avgConfidence
    factCheckResults := factCheckResults
    analyzedAt := now }

/-- External work of the `analyze_webpage` miss path up to and including the
summary model call. -/
def webpageMissEffects (ext : ClaimsExtraction) : List Effect :=
  [Effect.pageFetch, Effect.modelCall] ++
    (((extractedClaimsOf ext).take 3).map verifyPipelineEffects).flatten ++ [Effect.modelCall]

/-- The `analyze_webpage` tool handler: cache-first on the URL; on a miss the
scrape, the claim-extraction call and the summary call may each throw, which
the handler surfaces as an error response without inserting anything. -/
def analyzeWebpageTool (db : Database) (url : String)
    (_focusAreas : Option (List String)) (scrape : Except String WebpageContent)
    (extraction : Except String ClaimsExtraction) (envOf : String → AdapterEnv)
    (modelOf : String → ModelOutcome) (summaryOutcome : Except String String)
    (now : String) : ToolOutcome (Except String WebpageAnalysisRow) :=
  match findAnalysisByUrl db.webpageAnalyses url with
  | some row => ⟨.ok row, db, []⟩
  | none =>
    match scrape with
    | .error msg => ⟨.error ("Error analyzing webpage: " ++ msg), db, [Effect.pageFetch]⟩
    | .ok webContent =>
      match extraction with
      | .error msg =>
        ⟨.error ("Error analyzing webpage: " ++ msg), db, [Effect.pageFetch, Effect.modelCall]⟩
      | .ok ext =>
        match summaryOutcome with
        | .error msg =>
          ⟨.error ("Error analyzing webpage: " ++ msg), db,
            [Effect.pageFetch, Effect.modelCall] ++
              (((extractedClaimsOf ext).take 3).map verifyPipelineEffects).flatten⟩
        | .ok summaryText =>
          let row := mkWebpageAnalysisRow url webContent ext envOf modelOf summaryText now
          ⟨.ok row, { db with webpageAnalyses := db.webpageAnalyses ++ [row] },
            webpageMissEffects ext ++ [Effect.insertRow]⟩

/-- The trending-claims list of a digest: computed only when requested and
some fact-checks were aggregated; a model failure or parse failure inside
the inner `try` degrades to the fixed "Analysis Error" item. -/
def digestTrending (includeTrending : Bool) (recentChecks : List FactCheckRow)
    (trendingOutcome : Except String (List TrendingItem)) : List TrendingItem :=
  if includeTrending && recentChecks.length > 0 then
    match trendingOutcome with
    | .ok items => items
    | .error _ => [{ topic := "Analysis Error", description := "Unable to identify trending topics" }]
  else []

/-- The row the `generate_daily_digest` handler inserts on a cache miss. -/
def mkDailyDigestRow (targetDate : String) (trendingClaims : List TrendingItem)
    (summaryText : String) (now : String) : DailyDigestRow :=
  { digestDate := targetDate
    trendingClaims := trendingClaims
    summary := summaryText
    generatedAt := now }

/-- The `generate_daily_digest` tool handler: the target date defaults to
today; cache-first on the date; on a miss it aggregates recent fact-checks
and analyses, optionally computes trending topics, generates a summary
(whose model call may throw, surfacing as an error without inserting), and
inserts the digest row. -/
def generateDailyDigestTool (db : Database) (dateArg : Option String)
    (includeTrending : Bool) (todayDate : String)
    (trendingOutcome : Except String (List TrendingItem))
    (summaryOutcome : Except String String) (now : String) :
    ToolOutcome (Except String DailyDigestRow) :=
  let targetDate := jsOrOpt dateArg todayDate
  match findDigestByDate db.dailyDigests targetDate with
  | some row => ⟨.ok row, db, []⟩
  | none =>
    let recentChecks := recentFactChecks db.factChecks targetDate
    let trendingClaims := digestTrending includeTrending recentChecks trendingOutcome
    match summaryOutcome with
    | .error msg =>
      ⟨.error ("Error generating daily digest: " ++ msg), db,
        if includeTrending && recentChecks.length > 0 then [Effect.modelCall] else []⟩
    | .ok summaryText =>
      let row := mkDailyDigestRow targetDate trendingClaims summaryText now
      ⟨.ok row, { db with dailyDigests := db.dailyDigests ++ [row] },
        (if includeTrending && recentChecks.length > 0 then [Effect.modelCall] else []) ++
          [Effect.modelCall, Effect.insertRow]⟩

/-! ## Spec-side definitions

These follow the specification's words (not the source) and are compared
against the extracted definitions in the theorems below. -/

/-- Confidence adjustment exactly as the spec words it: (a) raise to at least
0.8 times the mean evidence confidence when evidence exists; (b) on conflict
`max(0.3, c * 0.7)`; (c) specialized-source floor 0.85 when no conflict;
(d) fact-check-verdict floor 0.9 when no conflict; then clamp to [0,1]. -/
def specConfidenceAdjusted (modelConfidence : ℚ) (evidence : List ExternalFactCheckResult)
    (hasConflicts hasSpecialized hasFactCheckVerdict : Bool) : ℚ :=
  let a := if evidence.length > 0 then
      max modelConfidence (avgEvidenceConfidence evidence * ((8 : ℚ)/10))
    else modelConfidence
  let b := if hasConflicts then max ((3 : ℚ)/10) (a * ((7 : ℚ)/10)) else a
  let c := if hasSpecialized && !hasConflicts then max b ((85 : ℚ)/100) else b
  let d := if hasFactCheckVerdict && !hasConflicts then max c ((9 : ℚ)/10) else c
  max 0 (min 1 d)

/-- The evidence URLs not already seen, first occurrence kept, later
duplicates dropped (the spec's "evidence URLs not already present,
preserving first-seen order"). -/
def dedupNewUrls (seen : List String) : List String → List String
  | [] => []
  | u :: us => if seen.contains u then dedupNewUrls seen us else u :: dedupNewUrls (seen ++ [u]) us

/-! ## Helper lemmas -/

theorem mem_insertDescBy {α : Type} (key : α → String) (x a : α) (l : List α) :
    a ∈ insertDescBy key x l ↔ a = x ∨ a ∈ l := by
  induction l with
  | nil => simp [insertDescBy]
  | cons y ys ih =>
    simp only [insertDescBy]
    split
    · simp [List.mem_cons]
    · simp only [List.mem_cons, ih]
      tauto

theorem mem_sortDescBy {α : Type} (key : α → String) (a : α) (l : List α) :
    a ∈ sortDescBy key l ↔ a ∈ l := by
  induction l with
  | nil => simp [sortDescBy]
  | cons y ys ih => simp [sortDescBy, mem_insertDescBy, ih]

theorem length_insertDescBy {α : Type} (key : α → String) (x : α) (l : List α) :
    (insertDescBy key x l).length = l.length + 1 := by
  induction l with
  | nil => simp [insertDescBy]
  | cons y ys ih =>
    simp only [insertDescBy]
    split
    · simp
    · simp [ih]

theorem length_sortDescBy {α : Type} (key : α → String) (l : List α) :
    (sortDescBy key l).length = l.length := by
  induction l with
  | nil => simp [sortDescBy]
  | cons y ys ih => simp [sortDescBy, length_insertDescBy, ih]

theorem sortDescBy_eq_nil_iff {α : Type} (key : α → String) (l : List α) :
    sortDescBy key l = [] ↔ l = [] := by
  constructor
  · intro h
    have := length_sortDescBy key l
    rw [h] at this
    exact List.length_eq_zero.mp this.symm
  · intro h
    simp [h, sortDescBy]

theorem findVerdictByClaim_none_iff (rows : List FactCheckRow) (claim : String) :
    findVerdictByClaim rows claim = none ↔
      rows.filter (fun r => r.claimText == claim) = [] := by
  unfold findVerdictByClaim
  rw [List.head?_eq_none_iff, sortDescBy_eq_nil_iff]

theorem findVerdictByClaim_append_singleton (rows : List FactCheckRow)
    (claim : String) (row : FactCheckRow)
    (hmiss : findVerdictByClaim rows claim = none) (hkey : row.claimText = claim) :
    findVerdictByClaim (rows ++ [row]) claim = some row := by
  have hfilter := (findVerdictByClaim_none_iff rows claim).mp hmiss
  unfold findVerdictByClaim
  rw [List.filter_append, hfilter]
  simp [List.filter, hkey, sortDescBy, insertDescBy]

theorem findAnalysisByUrl_none_iff (rows : List WebpageAnalysisRow) (url : String) :
    findAnalysisByUrl rows url = none ↔ rows.filter (fun r => r.url == url) = [] := by
  unfold findAnalysisByUrl
  rw [List.head?_eq_none_iff]

theorem findAnalysisByUrl_append_singleton (rows : List WebpageAnalysisRow)
    (url : String) (row : WebpageAnalysisRow)
    (hmiss : findAnalysisByUrl rows url = none) (hkey : row.url = url) :
    findAnalysisByUrl (rows ++ [row]) url = some row := by
  have hfilter := (findAnalysisByUrl_none_iff rows url).mp hmiss
  unfold findAnalysisByUrl
  rw [List.filter_append, hfilter]
  simp [List.filter, hkey]

theorem findDigestByDate_none_iff (rows : List DailyDigestRow) (date : String) :
    findDigestByDate rows date = none ↔ rows.filter (fun r => r.digestDate == date) = [] := by
  unfold findDigestByDate
  rw [List.head?_eq_none_iff]

theorem findDigestByDate_append_singleton (rows : List DailyDigestRow)
    (date : String) (row : DailyDigestRow)
    (hmiss : findDigestByDate rows date = none) (hkey : row.digestDate = date) :
    findDigestByDate (rows ++ [row]) date = some row := by
  have hfilter := (findDigestByDate_none_iff rows date).mp hmiss
  unfold findDigestByDate
  rw [List.filter_append, hfilter]
  simp [List.filter, hkey]

theorem mergeSources_eq_append (evidence : List ExternalFactCheckResult) :
    ∀ seen : List String,
      mergeSources seen evidence = seen ++ dedupNewUrls seen (evidence.map fun r => r.url) := by
  induction evidence with
  | nil => intro seen; simp [mergeSources, dedupNewUrls]
  | cons r rest ih =>
    intro seen
    simp only [mergeSources, List.foldl_cons, List.map_cons, dedupNewUrls]
    by_cases h : seen.contains r.url = true
    · rw [if_pos h, if_pos h]
      exact ih seen
    · rw [if_neg h, if_neg h]
      have := ih (seen ++ [r.url])
      simp only [mergeSources] at this
      rw [this, List.append_assoc]
      simp

theorem containsFalseIff (l : List String) (a : String) :
    l.contains a = false ↔ a ∉ l := by
  rw [Bool.eq_false_iff]
  exact not_congr List.elem_iff

theorem mem_dedupNewUrls_not_seen (u : String) :
    ∀ (us seen : List String), u ∈ dedupNewUrls seen us → seen.contains u = false := by
  intro us
  induction us with
  | nil => intro seen h; simp [dedupNewUrls] at h
  | cons v vs ih =>
    intro seen h
    simp only [dedupNewUrls] at h
    by_cases hc : seen.contains v = true
    · rw [if_pos hc] at h
      exact ih seen h
    · rw [if_neg hc] at h
      rcases List.mem_cons.mp h with rfl | hmem
      · simpa using hc
      · have h2 := (containsFalseIff _ _).mp (ih (seen ++ [v]) hmem)
        rw [containsFalseIff]
        intro hu
        exact h2 (List.mem_append.mpr (Or.inl hu))

theorem nodup_dedupNewUrls :
    ∀ (us seen : List String), (dedupNewUrls seen us).Nodup := by
  intro us
  induction us with
  | nil => intro seen; simp [dedupNewUrls]
  | cons v vs ih =>
    intro seen
    simp only [dedupNewUrls]
    by_cases hc : seen.contains v = true
    · rw [if_pos hc]; exact ih seen
    · rw [if_neg hc]
      refine List.nodup_cons.mpr ⟨?_, ih (seen ++ [v])⟩
      intro hmem
      have := mem_dedupNewUrls_not_seen v vs (seen ++ [v]) hmem
      simp at this

theorem not_mem_seen_of_mem_dedupNewUrls (u : String) (us seen : List String)
    (h : u ∈ dedupNewUrls seen us) : u ∉ seen :=
  (containsFalseIff _ _).mp (mem_dedupNewUrls_not_seen u us seen h)

theorem mem_conflictPairsList (s : String) :
    ∀ ev : List ExternalFactCheckResult,
      s ∈ conflictPairsList ev ↔
        ∃ a b, List.Sublist [a, b] ev ∧ pairConflict a b = true ∧
          s = a.source ++ " vs " ++ b.source := by
  intro ev
  induction ev with
  | nil =>
    simp only [conflictPairsList, List.not_mem_nil, false_iff, not_exists]
    intro a b h
    obtain ⟨hsub, -, -⟩ := h
    simpa using List.sublist_nil.mp hsub
  | cons r rest ih =>
    simp only [conflictPairsList, List.mem_append, List.mem_map, List.mem_filter, ih]
    constructor
    · rintro (⟨b, ⟨hb, hpc⟩, rfl⟩ | ⟨a, b, hsub, hpc, rfl⟩)
      · exact ⟨r, b, (List.singleton_sublist.mpr hb).cons₂ r, hpc, rfl⟩
      · exact ⟨a, b, hsub.cons r, hpc, rfl⟩
    · rintro ⟨a, b, hsub, hpc, rfl⟩
      cases hsub with
      | cons _ h => exact Or.inr ⟨a, b, h, hpc, rfl⟩
      | cons₂ _ h => exact Or.inl ⟨b, ⟨List.singleton_sublist.mp h, hpc⟩, rfl⟩

theorem conflictPairsList_ne_nil_iff (ev : List ExternalFactCheckResult) :
    ¬ conflictPairsList ev = [] ↔
      ∃ a b, List.Sublist [a, b] ev ∧ pairConflict a b = true := by
  constructor
  · intro h
    match hl : conflictPairsList ev with
    | [] => exact absurd hl h
    | s :: tl =>
      have hs : s ∈ conflictPairsList ev := by rw [hl]; exact List.mem_cons_self s tl
      obtain ⟨a, b, hsub, hpc, -⟩ := (mem_conflictPairsList s ev).mp hs
      exact ⟨a, b, hsub, hpc⟩
  · rintro ⟨a, b, hsub, hpc⟩ h
    have hs : (a.source ++ " vs " ++ b.source) ∈ conflictPairsList ev :=
      (mem_conflictPairsList _ ev).mpr ⟨a, b, hsub, hpc, rfl⟩
    rw [h] at hs
    simp at hs

/-! ## Claim theorems -/

/-- C2: for every claim text, optional context, evidence list, and
generative-model behaviour (success with any JSON payload including
out-of-range confidence values, malformed non-JSON output, or a thrown
error), the verdict's confidence lies in the closed interval [0,1]; the same
holds for the full `verifyClaim` under every adapter environment. -/
theorem claim_C2_confidence_in_unit_interval :
    (∀ (claim : String) (context : Option String)
        (evidence : List ExternalFactCheckResult) (model : ModelOutcome),
      0 ≤ (synthesizeVerdict claim context evidence model).confidence ∧
        (synthesizeVerdict claim context evidence model).confidence ≤ 1) ∧
    (∀ (claim : String) (context : Option String) (env : AdapterEnv)
        (model : ModelOutcome),
      0 ≤ (verifyClaim claim context env model).confidence ∧
        (verifyClaim claim context env model).confidence ≤ 1) := by
  have base : ∀ (claim : String) (context : Option String)
      (evidence : List ExternalFactCheckResult) (model : ModelOutcome),
      0 ≤ (synthesizeVerdict claim context evidence model).confidence ∧
        (synthesizeVerdict claim context evidence model).confidence ≤ 1 := by
    intro claim context evidence model
    cases model with
    | failure msg =>
      simp only [synthesizeVerdict]
      split <;> norm_num
    | malformed text =>
      simp only [synthesizeVerdict]
      split <;> norm_num
    | parsed p =>
      simp only [synthesizeVerdict]
      exact ⟨le_max_left 0 _, max_le (by norm_num) (min_le_left 1 _)⟩
  exact ⟨base, fun claim context env model =>
    base claim context (collectEvidence claim env) model⟩

/-- C5: the synthesizer never propagates a model failure.  A thrown model
call yields status `unverified`, confidence 0.4 with evidence else 0,
sources equal to the evidence URLs, and an error-description reasoning;
malformed model output yields status `unverified`, confidence 0.6 with
evidence else 0.3, sources equal to the evidence URLs, and the raw model
text (or the fixed fallback when empty) as reasoning. -/
theorem claim_C5_degraded_fallbacks :
    (∀ (claim : String) (context : Option String)
        (evidence : List ExternalFactCheckResult) (msg : String),
      synthesizeVerdict claim context evidence (.failure msg) =
        { status := "unverified"
          confidence := if evidence.isEmpty then 0 else (4 : ℚ)/10
          sources := evidence.map fun r => r.url
          reasoning := "Error during verification: " ++ msg }) ∧
    (∀ (claim : String) (context : Option String)
        (evidence : List ExternalFactCheckResult) (text : String),
      synthesizeVerdict claim context evidence (.malformed text) =
        { status := "unverified"
          confidence := if evidence.isEmpty then (3 : ℚ)/10 else (6 : ℚ)/10
          sources := evidence.map fun r => r.url
          reasoning := if text = "" then "Unable to verify claim" else text }) := by
  constructor
  · intro claim context evidence msg
    cases evidence <;> simp [synthesizeVerdict]
  · intro claim context evidence text
    cases evidence <;> simp [synthesizeVerdict, jsOr]


/-- C3: on the successful-JSON path the confidence equals the spec-worded
adjustment chain — (a) evidence-mean floor, (b) conflict dampening,
(c) specialized-source floor, (d) fact-check-verdict floor, then the clamp —
applied to the model-reported confidence; and with a single evidence record
of confidence 0.8 the final confidence is at least 0.64. -/
theorem claim_C3_confidence_adjustment_order :
    (∀ (claim : String) (context : Option String)
        (evidence : List ExternalFactCheckResult) (p : ParsedFactCheck),
      (synthesizeVerdict claim context evidence (.parsed p)).confidence =
        specConfidenceAdjusted (p.confidence.getD 0) evidence
          (analyzeSourceConflicts evidence).hasConflicts
          (evidence.any isSpecializedSource) (snopesWithVerdict evidence)) ∧
    (∀ (claim : String) (context : Option String) (p : ParsedFactCheck)
        (r : ExternalFactCheckResult), r.confidence = (8 : ℚ)/10 →
      (64 : ℚ)/100 ≤ (synthesizeVerdict claim context [r] (.parsed p)).confidence) := by
  have heq : ∀ (claim : String) (context : Option String)
      (evidence : List ExternalFactCheckResult) (p : ParsedFactCheck),
      (synthesizeVerdict claim context evidence (.parsed p)).confidence =
        specConfidenceAdjusted (p.confidence.getD 0) evidence
          (analyzeSourceConflicts evidence).hasConflicts
          (evidence.any isSpecializedSource) (snopesWithVerdict evidence) := by
    intro claim context evidence p
    rfl
  refine ⟨heq, ?_⟩
  intro claim context p r hr
  rw [heq]
  have hconf : (analyzeSourceConflicts [r]).hasConflicts = false := rfl
  have havg : avgEvidenceConfidence [r] = r.confidence := by
    simp [avgEvidenceConfidence]
  rw [hconf]
  unfold specConfidenceAdjusted
  rw [havg, hr]
  cases h1 : [r].any isSpecializedSource <;> cases h2 : snopesWithVerdict [r] <;>
    simp only [h1, h2, Bool.not_false, Bool.and_true, Bool.false_eq_true, if_false,
      if_true, List.length_singleton, gt_iff_lt, Nat.zero_lt_one] <;>
    simp only [le_max_iff, le_min_iff] <;>
    norm_num

/-- Witness for C3: the encyclopedic-adapter example at confidence 0.8. -/
theorem claim_C3_confidence_adjustment_order_witness :
    (64 : ℚ)/100 ≤ (synthesizeVerdict "The Sun rises in the east" none
      [{ source := "Wikipedia", verdict := none, summary := "The Sun rises in the east.",
         url := "https://en.wikipedia.org/wiki/Sunrise", confidence := (8 : ℚ)/10 }]
      (.parsed { status := some "true", confidence := some ((5 : ℚ)/10),
                 sources := none, reasoning := some "model reasoning" })).confidence :=
  claim_C3_confidence_adjustment_order.2 "The Sun rises in the east" none
    { status := some "true", confidence := some ((5 : ℚ)/10),
      sources := none, reasoning := some "model reasoning" }
    { source := "Wikipedia", verdict := none, summary := "The Sun rises in the east.",
      url := "https://en.wikipedia.org/wiki/Sunrise", confidence := (8 : ℚ)/10 }
    rfl

/-- Counterexample to C4: when the model itself reports the same URL twice,
the merged source list keeps both copies, so it does contain a duplicate. -/
theorem claim_C4_counterexample :
    ¬ ((synthesizeVerdict "claim" none []
        (.parsed { status := some "true", confidence := some 1,
                   sources := some ["https://example.com/a", "https://example.com/a"],
                   reasoning := some "r" })).sources.Nodup) := by
  decide

/-- C4 (amended): the merged source list equals the model-reported sources
(kept verbatim, duplicates included) followed by the evidence URLs not
already present, preserving first-seen order; no evidence URL is ever added
twice, so whenever the model-reported list itself has no duplicate the final
list has none — but a URL the model reports twice is kept twice. -/
theorem claim_C4_amended :
    (∀ (modelSources : List String) (evidence : List ExternalFactCheckResult),
      mergeSources modelSources evidence =
        modelSources ++ dedupNewUrls modelSources (evidence.map fun r => r.url)) ∧
    (∀ (modelSources : List String) (evidence : List ExternalFactCheckResult),
      modelSources.Nodup → (mergeSources modelSources evidence).Nodup) ∧
    (∀ (claim : String) (context : Option String)
        (evidence : List ExternalFactCheckResult) (p : ParsedFactCheck)
        (msources : List String),
      p.sources = some msources → msources.Nodup →
      (synthesizeVerdict claim context evidence (.parsed p)).sources.Nodup) := by
  have h1 : ∀ (modelSources : List String) (evidence : List ExternalFactCheckResult),
      mergeSources modelSources evidence =
        modelSources ++ dedupNewUrls modelSources (evidence.map fun r => r.url) :=
    fun modelSources evidence => mergeSources_eq_append evidence modelSources
  have h2 : ∀ (modelSources : List String) (evidence : List ExternalFactCheckResult),
      modelSources.Nodup → (mergeSources modelSources evidence).Nodup := by
    intro modelSources evidence hnodup
    rw [h1]
    refine List.Nodup.append hnodup (nodup_dedupNewUrls _ _) ?_
    intro a ha hb
    exact not_mem_seen_of_mem_dedupNewUrls a _ _ hb ha
  refine ⟨h1, h2, ?_⟩
  intro claim context evidence p msources hp hnodup
  have hsrc : (synthesizeVerdict claim context evidence (.parsed p)).sources =
      mergeSources msources evidence := by
    simp [synthesizeVerdict, hp]
  rw [hsrc]
  exact h2 msources evidence hnodup

/-- Witness for C4 (amended): a model/adapter URL overlap merges without a
duplicate. -/
theorem claim_C4_amended_witness :
    (synthesizeVerdict "c" none
      [{ source := "Wikipedia", verdict := none, summary := "s",
         url := "https://example.com/a", confidence := 1 }]
      (.parsed { status := some "true", confidence := some 1,
                 sources := some ["https://example.com/a", "https://example.com/b"],
                 reasoning := some "r" })).sources.Nodup :=
  claim_C4_amended.2.2 "c" none
    [{ source := "Wikipedia", verdict := none, summary := "s",
       url := "https://example.com/a", confidence := 1 }]
    { status := some "true", confidence := some 1,
      sources := some ["https://example.com/a", "https://example.com/b"],
      reasoning := some "r" }
    ["https://example.com/a", "https://example.com/b"] rfl (by decide)

/-- Counterexample to C7: the antonym check is directional, not symmetric.
With the earlier record's summary containing "lost" and the later one
containing "won" (and no explicit verdict labels, so step 1 finds nothing),
no pair is flagged, although the claim requires the pair to be flagged
regardless of which record comes first. -/
theorem claim_C7_counterexample :
    containsStr (lowerStr "Team B lost the final") "lost" = true ∧
    containsStr (lowerStr "Team A won the final") "won" = true ∧
    explicitVerdicts
      [{ source := "Source One", verdict := none, summary := "Team B lost the final",
         url := "https://one.example", confidence := 1 },
       { source := "Source Two", verdict := none, summary := "Team A won the final",
         url := "https://two.example", confidence := 1 }] = [] ∧
    (analyzeSourceConflicts
      [{ source := "Source One", verdict := none, summary := "Team B lost the final",
         url := "https://one.example", confidence := 1 },
       { source := "Source Two", verdict := none, summary := "Team A won the final",
         url := "https://two.example", confidence := 1 }]).hasConflicts = false := by
  decide

/-- C7 (amended): when step 1 finds no explicit-verdict conflict, a pair of
records is flagged only directionally — the EARLIER record's case-folded
summary must contain "won" (resp. "true", "yes") and the LATER record's
summary "lost" (resp. "false", "no"); flagged pairs are recorded as
"<sourceA> vs <sourceB>" in loop order, the explanation is their
comma+space join prefixed "Conflicting information between: ", and
hasConflicts is true iff at least one ordered pair is flagged. -/
theorem claim_C7_amended (ev : List ExternalFactCheckResult)
    (hlen : 2 ≤ ev.length)
    (hstep1 : (((explicitVerdicts ev).any fun v => containsStr v "true") &&
      ((explicitVerdicts ev).any fun v => containsStr v "false")) = false) :
    ((analyzeSourceConflicts ev).hasConflicts = true ↔
      ∃ a b, List.Sublist [a, b] ev ∧ pairConflict a b = true) ∧
    ((analyzeSourceConflicts ev).conflictSummary =
      if conflictPairsList ev = [] then ""
      else "Conflicting information between: " ++
        String.intercalate ", " (conflictPairsList ev)) ∧
    (∀ s ∈ conflictPairsList ev,
      ∃ a b, List.Sublist [a, b] ev ∧ pairConflict a b = true ∧
        s = a.source ++ " vs " ++ b.source) := by
  have hform : analyzeSourceConflicts ev =
      { hasConflicts := !(conflictPairsList ev).isEmpty
        conflictSummary := if (conflictPairsList ev).isEmpty then ""
          else "Conflicting information between: " ++
            String.intercalate ", " (conflictPairsList ev) } := by
    unfold analyzeSourceConflicts
    rw [if_neg (by omega)]
    rw [if_neg (by simp [hstep1])]
  refine ⟨?_, ?_, fun s hs => (mem_conflictPairsList s ev).mp hs⟩
  · rw [hform]
    show (!(conflictPairsList ev).isEmpty) = true ↔ _
    rw [Bool.not_eq_true', ← Bool.not_eq_true, List.isEmpty_iff]
    exact conflictPairsList_ne_nil_iff ev
  · rw [hform]
    show (if (conflictPairsList ev).isEmpty then "" else _) = _
    rcases h : conflictPairsList ev with - | ⟨s, tl⟩ <;> simp

/-- Witness for C7 (amended): a directional "won"/"lost" pair is flagged and
rendered into the explanation. -/
theorem claim_C7_amended_witness :
    (analyzeSourceConflicts
      [{ source := "A", verdict := none, summary := "won",
         url := "https://a.example", confidence := 1 },
       { source := "B", verdict := none, summary := "lost",
         url := "https://b.example", confidence := 1 }]).hasConflicts = true ∧
    (analyzeSourceConflicts
      [{ source := "A", verdict := none, summary := "won",
         url := "https://a.example", confidence := 1 },
       { source := "B", verdict := none, summary := "lost",
         url := "https://b.example", confidence := 1 }]).conflictSummary =
      "Conflicting information between: A vs B" := by
  have h := claim_C7_amended
    [{ source := "A", verdict := none, summary := "won",
       url := "https://a.example", confidence := 1 },
     { source := "B", verdict := none, summary := "lost",
       url := "https://b.example", confidence := 1 }]
    (by decide) (by decide)
  constructor
  · exact h.1.mpr ⟨_, _, List.Sublist.refl _, by decide⟩
  · rw [h.2.1]
    decide

/-- Counterexample to C8: with verdict labels "True" and "False" on two
records the analyzer does flag a conflict, but its explanation is the longer
string "Sources provide conflicting verdicts (some say true, others say
false)", not exactly "Sources provide conflicting verdicts." as claimed. -/
theorem claim_C8_counterexample :
    containsStr (lowerStr "True") "true" = true ∧
    containsStr (lowerStr "False") "false" = true ∧
    (analyzeSourceConflicts
      [{ source := "Snopes", verdict := some "True", summary := "",
         url := "https://one.example", confidence := 1 },
       { source := "PolitiFact", verdict := some "False", summary := "",
         url := "https://two.example", confidence := 1 }]).hasConflicts = true ∧
    ¬ ((analyzeSourceConflicts
      [{ source := "Snopes", verdict := some "True", summary := "",
         url := "https://one.example", confidence := 1 },
       { source := "PolitiFact", verdict := some "False", summary := "",
         url := "https://two.example", confidence := 1 }]).conflictSummary =
      "Sources provide conflicting verdicts.") := by
  decide

/-- C8 (amended): for every evidence list with at least 2 records, if among
the case-folded explicit verdict labels one (from some record) contains
"true" and another (from some record) contains "false", the analyzer returns
hasConflicts = true with exactly the explanation "Sources provide
conflicting verdicts (some say true, others say false)"; with fewer than 2
records it returns no conflict. -/
theorem claim_C8_amended :
    (∀ (ev : List ExternalFactCheckResult) (r1 r2 : ExternalFactCheckResult)
        (v1 v2 : String),
      2 ≤ ev.length → r1 ∈ ev → r2 ∈ ev →
      r1.verdict = some v1 → r2.verdict = some v2 → ¬ v1 = "" → ¬ v2 = "" →
      containsStr (lowerStr v1) "true" = true →
      containsStr (lowerStr v2) "false" = true →
      analyzeSourceConflicts ev =
        { hasConflicts := true
          conflictSummary :=
            "Sources provide conflicting verdicts (some say true, others say false)" }) ∧
    (∀ ev : List ExternalFactCheckResult, ev.length < 2 →
      analyzeSourceConflicts ev = { hasConflicts := false, conflictSummary := "" }) := by
  constructor
  · intro ev r1 r2 v1 v2 hlen hr1 hr2 hv1 hv2 hne1 hne2 ht hf
    have hmem1 : lowerStr v1 ∈ explicitVerdicts ev := by
      refine List.mem_filterMap.mpr ⟨r1, hr1, ?_⟩
      rw [hv1]
      simp [hne1]
    have hmem2 : lowerStr v2 ∈ explicitVerdicts ev := by
      refine List.mem_filterMap.mpr ⟨r2, hr2, ?_⟩
      rw [hv2]
      simp [hne2]
    have hTrue : ((explicitVerdicts ev).any fun v => containsStr v "true") = true :=
      List.any_eq_true.mpr ⟨lowerStr v1, hmem1, ht⟩
    have hFalse : ((explicitVerdicts ev).any fun v => containsStr v "false") = true :=
      List.any_eq_true.mpr ⟨lowerStr v2, hmem2, hf⟩
    unfold analyzeSourceConflicts
    rw [if_neg (by omega)]
    rw [if_pos (by rw [hTrue, hFalse]; rfl)]
  · intro ev hlen
    unfold analyzeSourceConflicts
    rw [if_pos hlen]

/-- Witness for C8 (amended): the "True"/"False" label pair on a two-record
list yields the fixed long explanation. -/
theorem claim_C8_amended_witness :
    analyzeSourceConflicts
      [{ source := "Snopes", verdict := some "True", summary := "a",
         url := "https://one.example", confidence := 1 },
       { source := "X", verdict := some "False", summary := "b",
         url := "https://two.example", confidence := 1 }] =
      { hasConflicts := true
        conflictSummary :=
          "Sources provide conflicting verdicts (some say true, others say false)" } :=
  claim_C8_amended.1
    [{ source := "Snopes", verdict := some "True", summary := "a",
       url := "https://one.example", confidence := 1 },
     { source := "X", verdict := some "False", summary := "b",
       url := "https://two.example", confidence := 1 }]
    { source := "Snopes", verdict := some "True", summary := "a",
      url := "https://one.example", confidence := 1 }
    { source := "X", verdict := some "False", summary := "b",
      url := "https://two.example", confidence := 1 }
    "True" "False" (by decide)
    (List.mem_cons_self _ _)
    (List.mem_cons_of_mem _ (List.mem_cons_self _ _))
    rfl rfl (by decide) (by decide) (by decide) (by decide)

/-- C6: every source adapter returns one evidence record or none for every
behaviour of its external system, and never lets an error escape its
boundary: any exception raised inside an adapter body (network failure or
malformed payload) is caught and surfaces as "no match" (`none`), and a
non-OK response also yields `none`. -/
theorem claim_C6_adapters_never_throw :
    (∀ q f e, searchWikipediaBody q f = .error e → searchWikipedia q f = none) ∧
    (∀ q m, searchWikipedia q (.netFail m) = none ∧
      searchWikipedia q (.badBody m) = none ∧ searchWikipedia q .notOk = none) ∧
    (∀ q f e, searchDuckDuckGoBody q f = .error e → searchDuckDuckGo q f = none) ∧
    (∀ q m, searchDuckDuckGo q (.netFail m) = none ∧
      searchDuckDuckGo q (.badBody m) = none ∧ searchDuckDuckGo q .notOk = none) ∧
    (∀ q f e, searchSnopesBody q f = .error e → searchSnopes q f = none) ∧
    (∀ q m, searchSnopes q (.netFail m) = none ∧
      searchSnopes q (.badBody m) = none ∧ searchSnopes q .notOk = none) ∧
    (∀ q f e, queryWikidataBody q f = .error e → queryWikidata q f = none) ∧
    (∀ q m, queryWikidata q (.netFail m) = none ∧
      queryWikidata q (.badBody m) = none ∧ queryWikidata q .notOk = none) ∧
    (∀ q f e, searchLiquipediaBody q f = .error e → searchLiquipedia q f = none) ∧
    (∀ q m, searchLiquipedia q (.netFail m) = none ∧
      searchLiquipedia q (.badBody m) = none ∧ searchLiquipedia q .notOk = none) ∧
    (∀ q f e, searchESPNBody q f = .error e → searchESPN q f = none) ∧
    (∀ q m, searchESPN q (.netFail m) = none ∧
      searchESPN q (.badBody m) = none ∧ searchESPN q .notOk = none) ∧
    (∀ q f e, searchSportsDBBody q f = .error e → searchSportsDB q f = none) ∧
    (∀ q m, searchSportsDB q (.netFail m) = none ∧
      searchSportsDB q (.badBody m) = none ∧ searchSportsDB q .notOk = none) ∧
    (∀ q f1 f2 e, searchPubMedBody q f1 f2 = .error e → searchPubMed q f1 f2 = none) ∧
    (∀ q m f2, searchPubMed q (.netFail m) f2 = none ∧
      searchPubMed q (.badBody m) f2 = none ∧ searchPubMed q .notOk f2 = none) ∧
    (∀ q m pmid rest, searchPubMed q (.ok (pmid :: rest)) (.netFail m) = none ∧
      searchPubMed q (.ok (pmid :: rest)) (.badBody m) = none ∧
      searchPubMed q (.ok (pmid :: rest)) .notOk = none) ∧
    (∀ q f e, searchWHOBody q f = .error e → searchWHO q f = none) ∧
    (∀ q m, searchWHO q (.netFail m) = none ∧
      searchWHO q (.badBody m) = none ∧ searchWHO q .notOk = none) ∧
    (∀ q f e, searchSECBody q f = .error e → searchSEC q f = none) ∧
    (∀ q m, searchSEC q (.netFail m) = none ∧
      searchSEC q (.badBody m) = none ∧ searchSEC q .notOk = none) ∧
    (∀ q f e, searchArXivBody q f = .error e → searchArXiv q f = none) ∧
    (∀ q m, searchArXiv q (.netFail m) = none ∧
      searchArXiv q (.badBody m) = none ∧ searchArXiv q .notOk = none) := by
  refine ⟨?_, ?_, ?_, ?_, ?_, ?_, ?_, ?_, ?_, ?_, ?_, ?_, ?_, ?_, ?_, ?_, ?_, ?_, ?_,
    ?_, ?_, ?_, ?_⟩
  · intro q f e h; unfold searchWikipedia adapterCatch; rw [h]
  · intro q m; exact ⟨rfl, rfl, rfl⟩
  · intro q f e h; unfold searchDuckDuckGo adapterCatch; rw [h]
  · intro q m; exact ⟨rfl, rfl, rfl⟩
  · intro q f e h; unfold searchSnopes adapterCatch; rw [h]
  · intro q m; exact ⟨rfl, rfl, rfl⟩
  · intro q f e h; unfold queryWikidata adapterCatch; rw [h]
  · intro q m; exact ⟨rfl, rfl, rfl⟩
  · intro q f e h; unfold searchLiquipedia adapterCatch; rw [h]
  · intro q m
    refine ⟨?_, ?_, ?_⟩ <;>
      (unfold searchLiquipedia searchLiquipediaBody adapterCatch
       cases detectGame q <;> rfl)
  · intro q f e h; unfold searchESPN adapterCatch; rw [h]
  · intro q m; exact ⟨rfl, rfl, rfl⟩
  · intro q f e h; unfold searchSportsDB adapterCatch; rw [h]
  · intro q m; exact ⟨rfl, rfl, rfl⟩
  · intro q f1 f2 e h; unfold searchPubMed adapterCatch; rw [h]
  · intro q m f2; exact ⟨rfl, rfl, rfl⟩
  · intro q m pmid rest; exact ⟨rfl, rfl, rfl⟩
  · intro q f e h; unfold searchWHO adapterCatch; rw [h]
  · intro q m; exact ⟨rfl, rfl, rfl⟩
  · intro q f e h; unfold searchSEC adapterCatch; rw [h]
  · intro q m; exact ⟨rfl, rfl, rfl⟩
  · intro q f e h; unfold searchArXiv adapterCatch; rw [h]
  · intro q m; exact ⟨rfl, rfl, rfl⟩

/-- Witness for C6: a network failure inside each adapter body is an error
that the boundary turns into "no match". -/
theorem claim_C6_adapters_never_throw_witness :
    searchWikipedia "q" (.netFail "down") = none ∧
    searchDuckDuckGo "q" (.netFail "down") = none ∧
    searchSnopes "q" (.netFail "down") = none ∧
    queryWikidata "q" (.netFail "down") = none ∧
    searchLiquipedia "dota major" (.netFail "down") = none ∧
    searchESPN "q" (.netFail "down") = none ∧
    searchSportsDB "q" (.netFail "down") = none ∧
    searchPubMed "q" (.ok ["123"]) (.netFail "down") = none ∧
    searchWHO "q" (.netFail "down") = none ∧
    searchSEC "q" (.netFail "down") = none ∧
    searchArXiv "q" (.netFail "down") = none :=
  ⟨claim_C6_adapters_never_throw.1 "q" (.netFail "down") "down" rfl,
   claim_C6_adapters_never_throw.2.2.1 "q" (.netFail "down") "down" rfl,
   claim_C6_adapters_never_throw.2.2.2.2.1 "q" (.netFail "down") "down" rfl,
   claim_C6_adapters_never_throw.2.2.2.2.2.2.1 "q" (.netFail "down") "down" rfl,
   claim_C6_adapters_never_throw.2.2.2.2.2.2.2.2.1 "dota major" (.netFail "down") "down" rfl,
   claim_C6_adapters_never_throw.2.2.2.2.2.2.2.2.2.2.1 "q" (.netFail "down") "down" rfl,
   claim_C6_adapters_never_throw.2.2.2.2.2.2.2.2.2.2.2.2.1 "q" (.netFail "down") "down" rfl,
   claim_C6_adapters_never_throw.2.2.2.2.2.2.2.2.2.2.2.2.2.2.1 "q" (.ok ["123"])
     (.netFail "down") "down" rfl,
   claim_C6_adapters_never_throw.2.2.2.2.2.2.2.2.2.2.2.2.2.2.2.2.2.1 "q"
     (.netFail "down") "down" rfl,
   claim_C6_adapters_never_throw.2.2.2.2.2.2.2.2.2.2.2.2.2.2.2.2.2.2.2.1 "q"
     (.netFail "down") "down" rfl,
   claim_C6_adapters_never_throw.2.2.2.2.2.2.2.2.2.2.2.2.2.2.2.2.2.2.2.2.2.1 "q"
     (.netFail "down") "down" rfl⟩

/-- C1: each of the three boundary operations is cache-first on its natural
key.  On a hit the stored record is returned unchanged with no external work
at all (no adapter query, no model call, no page fetch, no insert); on a
miss the full pipeline runs, the result is persisted and returned, and an
identical repeated request then returns that stored record with no further
work. -/
theorem claim_C1_cache_first :
    (∀ (db : Database) (claim : String) (context : Option String) (env : AdapterEnv)
        (model : ModelOutcome) (now : String) (row : FactCheckRow),
      findVerdictByClaim db.factChecks claim = some row →
      verifyClaimTool db claim context env model now = ⟨rowToResult row, db, []⟩) ∧
    (∀ (db : Database) (claim : String) (context : Option String) (env : AdapterEnv)
        (model : ModelOutcome) (now : String),
      findVerdictByClaim db.factChecks claim = none →
      verifyClaimTool db claim context env model now =
        ⟨verifyClaim claim context env model,
         { db with factChecks := db.factChecks ++
             [mkFactCheckRow claim (verifyClaim claim context env model) now] },
         verifyPipelineEffects claim ++ [Effect.insertRow]⟩ ∧
      (∀ (context2 : Option String) (env2 : AdapterEnv) (model2 : ModelOutcome)
          (now2 : String),
        verifyClaimTool (verifyClaimTool db claim context env model now).db claim
            context2 env2 model2 now2 =
          ⟨verifyClaim claim context env model,
           (verifyClaimTool db claim context env model now).db, []⟩)) ∧
    (∀ (db : Database) (url : String) (focusAreas : Option (List String))
        (scrape : Except String WebpageContent)
        (extraction : Except String ClaimsExtraction) (envOf : String → AdapterEnv)
        (modelOf : String → ModelOutcome) (summaryOutcome : Except String String)
        (now : String) (row : WebpageAnalysisRow),
      findAnalysisByUrl db.webpageAnalyses url = some row →
      analyzeWebpageTool db url focusAreas scrape extraction envOf modelOf
          summaryOutcome now = ⟨.ok row, db, []⟩) ∧
    (∀ (db : Database) (url : String) (focusAreas : Option (List String))
        (webContent : WebpageContent) (ext : ClaimsExtraction)
        (envOf : String → AdapterEnv) (modelOf : String → ModelOutcome)
        (summaryText now : String),
      findAnalysisByUrl db.webpageAnalyses url = none →
      analyzeWebpageTool db url focusAreas (.ok webContent) (.ok ext) envOf modelOf
          (.ok summaryText) now =
        ⟨.ok (mkWebpageAnalysisRow url webContent ext envOf modelOf summaryText now),
         { db with webpageAnalyses := db.webpageAnalyses ++
             [mkWebpageAnalysisRow url webContent ext envOf modelOf summaryText now] },
         webpageMissEffects ext ++ [Effect.insertRow]⟩ ∧
      (∀ (focusAreas2 : Option (List String)) (scrape2 : Except String WebpageContent)
          (extraction2 : Except String ClaimsExtraction) (envOf2 : String → AdapterEnv)
          (modelOf2 : String → ModelOutcome) (summaryOutcome2 : Except String String)
          (now2 : String),
        analyzeWebpageTool
            (analyzeWebpageTool db url focusAreas (.ok webContent) (.ok ext) envOf
              modelOf (.ok summaryText) now).db url focusAreas2 scrape2 extraction2
            envOf2 modelOf2 summaryOutcome2 now2 =
          ⟨.ok (mkWebpageAnalysisRow url webContent ext envOf modelOf summaryText now),
           (analyzeWebpageTool db url focusAreas (.ok webContent) (.ok ext) envOf
             modelOf (.ok summaryText) now).db, []⟩)) ∧
    (∀ (db : Database) (dateArg : Option String) (includeTrending : Bool)
        (todayDate : String) (trendingOutcome : Except String (List TrendingItem))
        (summaryOutcome : Except String String) (now : String) (row : DailyDigestRow),
      findDigestByDate db.dailyDigests (jsOrOpt dateArg todayDate) = some row →
      generateDailyDigestTool db dateArg includeTrending todayDate trendingOutcome
          summaryOutcome now = ⟨.ok row, db, []⟩) ∧
    (∀ (db : Database) (dateArg : Option String) (includeTrending : Bool)
        (todayDate : String) (trendingOutcome : Except String (List TrendingItem))
        (summaryText now : String),
      findDigestByDate db.dailyDigests (jsOrOpt dateArg todayDate) = none →
      generateDailyDigestTool db dateArg includeTrending todayDate trendingOutcome
          (.ok summaryText) now =
        ⟨.ok (mkDailyDigestRow (jsOrOpt dateArg todayDate)
            (digestTrending includeTrending
              (recentFactChecks db.factChecks (jsOrOpt dateArg todayDate))
              trendingOutcome) summaryText now),
         { db with dailyDigests := db.dailyDigests ++
             [mkDailyDigestRow (jsOrOpt dateArg todayDate)
               (digestTrending includeTrending
                 (recentFactChecks db.factChecks (jsOrOpt dateArg todayDate))
                 trendingOutcome) summaryText now] },
         (if includeTrending &&
             (recentFactChecks db.factChecks (jsOrOpt dateArg todayDate)).length > 0 then
            [Effect.modelCall] else []) ++ [Effect.modelCall, Effect.insertRow]⟩ ∧
      (∀ (includeTrending2 : Bool) (trendingOutcome2 : Except String (List TrendingItem))
          (summaryOutcome2 : Except String String) (now2 : String),
        generateDailyDigestTool
            (generateDailyDigestTool db dateArg includeTrending todayDate
              trendingOutcome (.ok summaryText) now).db dateArg includeTrending2
            todayDate trendingOutcome2 summaryOutcome2 now2 =
          ⟨.ok (mkDailyDigestRow (jsOrOpt dateArg todayDate)
              (digestTrending includeTrending
                (recentFactChecks db.factChecks (jsOrOpt dateArg todayDate))
                trendingOutcome) summaryText now),
           (generateDailyDigestTool db dateArg includeTrending todayDate
             trendingOutcome (.ok summaryText) now).db, []⟩)) := by
  have hverifyHit : ∀ (db : Database) (claim : String) (context : Option String)
      (env : AdapterEnv) (model : ModelOutcome) (now : String) (row : FactCheckRow),
      findVerdictByClaim db.factChecks claim = some row →
      verifyClaimTool db claim context env model now = ⟨rowToResult row, db, []⟩ := by
    intro db claim context env model now row h
    simp [verifyClaimTool, h]
  have hverifyMiss : ∀ (db : Database) (claim : String) (context : Option String)
      (env : AdapterEnv) (model : ModelOutcome) (now : String),
      findVerdictByClaim db.factChecks claim = none →
      verifyClaimTool db claim context env model now =
        ⟨verifyClaim claim context env model,
         { db with factChecks := db.factChecks ++
             [mkFactCheckRow claim (verifyClaim claim context env model) now] },
         verifyPipelineEffects claim ++ [Effect.insertRow]⟩ := by
    intro db claim context env model now h
    simp [verifyClaimTool, h]
  have hwebHit : ∀ (db : Database) (url : String) (focusAreas : Option (List String))
      (scrape : Except String WebpageContent)
      (extraction : Except String ClaimsExtraction) (envOf : String → AdapterEnv)
      (modelOf : String → ModelOutcome) (summaryOutcome : Except String String)
      (now : String) (row : WebpageAnalysisRow),
      findAnalysisByUrl db.webpageAnalyses url = some row →
      analyzeWebpageTool db url focusAreas scrape extraction envOf modelOf
        summaryOutcome now = ⟨.ok row, db, []⟩ := by
    intro db url focusAreas scrape extraction envOf modelOf summaryOutcome now row h
    simp [analyzeWebpageTool, h]
  have hwebMiss : ∀ (db : Database) (url : String) (focusAreas : Option (List String))
      (webContent : WebpageContent) (ext : ClaimsExtraction)
      (envOf : String → AdapterEnv) (modelOf : String → ModelOutcome)
      (summaryText now : String),
      findAnalysisByUrl db.webpageAnalyses url = none →
      analyzeWebpageTool db url focusAreas (.ok webContent) (.ok ext) envOf modelOf
          (.ok summaryText) now =
        ⟨.ok (mkWebpageAnalysisRow url webContent ext envOf modelOf summaryText now),
         { db with webpageAnalyses := db.webpageAnalyses ++
             [mkWebpageAnalysisRow url webContent ext envOf modelOf summaryText now] },
         webpageMissEffects ext ++ [Effect.insertRow]⟩ := by
    intro db url focusAreas webContent ext envOf modelOf summaryText now h
    simp [analyzeWebpageTool, h, mkWebpageAnalysisRow, webpageMissEffects]
  have hdigHit : ∀ (db : Database) (dateArg : Option String) (includeTrending : Bool)
      (todayDate : String) (trendingOutcome : Except String (List TrendingItem))
      (summaryOutcome : Except String String) (now : String) (row : DailyDigestRow),
      findDigestByDate db.dailyDigests (jsOrOpt dateArg todayDate) = some row →
      generateDailyDigestTool db dateArg includeTrending todayDate trendingOutcome
        summaryOutcome now = ⟨.ok row, db, []⟩ := by
    intro db dateArg includeTrending todayDate trendingOutcome summaryOutcome now row h
    simp [generateDailyDigestTool, h]
  have hdigMiss : ∀ (db : Database) (dateArg : Option String) (includeTrending : Bool)
      (todayDate : String) (trendingOutcome : Except String (List TrendingItem))
      (summaryText now : String),
      findDigestByDate db.dailyDigests (jsOrOpt dateArg todayDate) = none →
      generateDailyDigestTool db dateArg includeTrending todayDate trendingOutcome
          (.ok summaryText) now =
        ⟨.ok (mkDailyDigestRow (jsOrOpt dateArg todayDate)
            (digestTrending includeTrending
              (recentFactChecks db.factChecks (jsOrOpt dateArg todayDate))
              trendingOutcome) summaryText now),
         { db with dailyDigests := db.dailyDigests ++
             [mkDailyDigestRow (jsOrOpt dateArg todayDate)
               (digestTrending includeTrending
                 (recentFactChecks db.factChecks (jsOrOpt dateArg todayDate))
                 trendingOutcome) summaryText now] },
         (if includeTrending &&
             (recentFactChecks db.factChecks (jsOrOpt dateArg todayDate)).length > 0 then
            [Effect.modelCall] else []) ++ [Effect.modelCall, Effect.insertRow]⟩ := by
    intro db dateArg includeTrending todayDate trendingOutcome summaryText now h
    simp [generateDailyDigestTool, h]
  refine ⟨hverifyHit, ?_, hwebHit, ?_, hdigHit, ?_⟩
  · intro db claim context env model now h
    refine ⟨hverifyMiss db claim context env model now h, ?_⟩
    intro context2 env2 model2 now2
    rw [hverifyMiss db claim context env model now h]
    have hfind : findVerdictByClaim
        (db.factChecks ++ [mkFactCheckRow claim (verifyClaim claim context env model) now])
        claim = some (mkFactCheckRow claim (verifyClaim claim context env model) now) :=
      findVerdictByClaim_append_singleton db.factChecks claim _ h rfl
    rw [hverifyHit _ claim context2 env2 model2 now2 _ hfind]
    rfl
  · intro db url focusAreas webContent ext envOf modelOf summaryText now h
    refine ⟨hwebMiss db url focusAreas webContent ext envOf modelOf summaryText now h, ?_⟩
    intro focusAreas2 scrape2 extraction2 envOf2 modelOf2 summaryOutcome2 now2
    rw [hwebMiss db url focusAreas webContent ext envOf modelOf summaryText now h]
    have hfind : findAnalysisByUrl
        (db.webpageAnalyses ++
          [mkWebpageAnalysisRow url webContent ext envOf modelOf summaryText now]) url =
        some (mkWebpageAnalysisRow url webContent ext envOf modelOf summaryText now) :=
      findAnalysisByUrl_append_singleton db.webpageAnalyses url _ h rfl
    rw [hwebHit _ url focusAreas2 scrape2 extraction2 envOf2 modelOf2 summaryOutcome2
      now2 _ hfind]
  · intro db dateArg includeTrending todayDate trendingOutcome summaryText now h
    refine ⟨hdigMiss db dateArg includeTrending todayDate trendingOutcome summaryText
      now h, ?_⟩
    intro includeTrending2 trendingOutcome2 summaryOutcome2 now2
    rw [hdigMiss db dateArg includeTrending todayDate trendingOutcome summaryText now h]
    have hfind : findDigestByDate
        (db.dailyDigests ++
          [mkDailyDigestRow (jsOrOpt dateArg todayDate)
            (digestTrending includeTrending
              (recentFactChecks db.factChecks (jsOrOpt dateArg todayDate))
              trendingOutcome) summaryText now]) (jsOrOpt dateArg todayDate) =
        some (mkDailyDigestRow (jsOrOpt dateArg todayDate)
          (digestTrending includeTrending
            (recentFactChecks db.factChecks (jsOrOpt dateArg todayDate))
            trendingOutcome) summaryText now) :=
      findDigestByDate_append_singleton db.dailyDigests _ _ h rfl
    rw [hdigHit _ dateArg includeTrending2 todayDate trendingOutcome2 summaryOutcome2
      now2 _ hfind]

/-- Witness for C1: concrete cache hits return stored rows with no external
work, and a concrete miss inserts, after which an identical repeat request
does no work. -/
theorem claim_C1_cache_first_witness :
    (verifyClaimTool ⟨[⟨"c", "true", 1, [], "r", "2024-01-01 00:00:00"⟩], [], []⟩
      "c" none
      ⟨.notOk, .notOk, .notOk, .notOk, .notOk, .notOk, .notOk, .notOk, .notOk,
        .notOk, .notOk, .notOk⟩ (.malformed "") "t").effects = [] ∧
    (analyzeWebpageTool
      ⟨[], [⟨"https://w.example", "T", "S", [], "unknown", [], "2024-01-01 00:00:00"⟩], []⟩
      "https://w.example" none (.error "x") (.error "x")
      (fun _ => ⟨.notOk, .notOk, .notOk, .notOk, .notOk, .notOk, .notOk, .notOk,
        .notOk, .notOk, .notOk, .notOk⟩) (fun _ => .malformed "") (.error "x")
      "t").effects = [] ∧
    (generateDailyDigestTool ⟨[], [], [⟨"2024-01-01", [], "S", "ts"⟩]⟩
      (some "2024-01-01") true "2024-01-09" (.error "x") (.error "x")
      "t").effects = [] ∧
    (verifyClaimTool ⟨[], [], []⟩ "c" none
      ⟨.notOk, .notOk, .notOk, .notOk, .notOk, .notOk, .notOk, .notOk, .notOk,
        .notOk, .notOk, .notOk⟩ (.malformed "") "t").db.factChecks =
      [mkFactCheckRow "c"
        (verifyClaim "c" none
          ⟨.notOk, .notOk, .notOk, .notOk, .notOk, .notOk, .notOk, .notOk, .notOk,
            .notOk, .notOk, .notOk⟩ (.malformed "")) "t"] ∧
    (verifyClaimTool
      (verifyClaimTool ⟨[], [], []⟩ "c" none
        ⟨.notOk, .notOk, .notOk, .notOk, .notOk, .notOk, .notOk, .notOk, .notOk,
          .notOk, .notOk, .notOk⟩ (.malformed "") "t").db "c" none
      ⟨.notOk, .notOk, .notOk, .notOk, .notOk, .notOk, .notOk, .notOk, .notOk,
        .notOk, .notOk, .notOk⟩ (.malformed "") "t2").effects = [] ∧
    (generateDailyDigestTool ⟨[], [], []⟩
      none true "2024-01-01" (.ok []) (.ok "sum") "t").effects =
      [Effect.modelCall, Effect.insertRow] := by
  refine ⟨?_, ?_, ?_, ?_, ?_, ?_⟩
  · rw [claim_C1_cache_first.1 ⟨[⟨"c", "true", 1, [], "r", "2024-01-01 00:00:00"⟩], [], []⟩
      "c" none
      ⟨.notOk, .notOk, .notOk, .notOk, .notOk, .notOk, .notOk, .notOk, .notOk,
        .notOk, .notOk, .notOk⟩ (.malformed "") "t"
      ⟨"c", "true", 1, [], "r", "2024-01-01 00:00:00"⟩ rfl]
  · rw [claim_C1_cache_first.2.2.1
      ⟨[], [⟨"https://w.example", "T", "S", [], "unknown", [], "2024-01-01 00:00:00"⟩], []⟩
      "https://w.example" none (.error "x") (.error "x")
      (fun _ => ⟨.notOk, .notOk, .notOk, .notOk, .notOk, .notOk, .notOk, .notOk,
        .notOk, .notOk, .notOk, .notOk⟩) (fun _ => .malformed "") (.error "x") "t"
      ⟨"https://w.example", "T", "S", [], "unknown", [], "2024-01-01 00:00:00"⟩ rfl]
  · rw [claim_C1_cache_first.2.2.2.2.1 ⟨[], [], [⟨"2024-01-01", [], "S", "ts"⟩]⟩
      (some "2024-01-01") true "2024-01-09"
      (.error "x") (.error "x") "t" ⟨"2024-01-01", [], "S", "ts"⟩ rfl]
  · rw [(claim_C1_cache_first.2.1 ⟨[], [], []⟩ "c" none
      ⟨.notOk, .notOk, .notOk, .notOk, .notOk, .notOk, .notOk, .notOk, .notOk,
        .notOk, .notOk, .notOk⟩ (.malformed "") "t" rfl).1]
    rfl
  · rw [(claim_C1_cache_first.2.1 ⟨[], [], []⟩ "c" none
      ⟨.notOk, .notOk, .notOk, .notOk, .notOk, .notOk, .notOk, .notOk, .notOk,
        .notOk, .notOk, .notOk⟩ (.malformed "") "t" rfl).2 none
      ⟨.notOk, .notOk, .notOk, .notOk, .notOk, .notOk, .notOk, .notOk, .notOk,
        .notOk, .notOk, .notOk⟩ (.malformed "") "t2"]
  · rw [(claim_C1_cache_first.2.2.2.2.2 ⟨[], [], []⟩ none true "2024-01-01"
      (.ok []) "sum" "t" rfl).1]
    rfl

/-- Counterexample to C9: the digest aggregation query keeps every record
whose creation timestamp is merely on-or-after the target date string, so a
fact-check created the NEXT day (timestamp not within the 2024-01-01
calendar day) is still aggregated into the 2024-01-01 digest. -/
theorem claim_C9_counterexample :
    recentFactChecks [⟨"c", "true", 1, [], "r", "2024-01-02 08:00:00"⟩] "2024-01-01" =
      [⟨"c", "true", 1, [], "r", "2024-01-02 08:00:00"⟩] ∧
    startsWithStr "2024-01-02 08:00:00" "2024-01-01" = false := by
  exact ⟨rfl, by decide⟩

/-- C9 (amended): the records aggregated into a new digest are those whose
creation timestamp is on-or-after the target date string in store collation
order — including records from later days — most recent first and capped at
20 fact-checks and 10 webpage analyses; below those caps, every such record
is included. -/
theorem claim_C9_amended :
    (∀ (rows : List FactCheckRow) (target : String) (r : FactCheckRow),
      r ∈ recentFactChecks rows target →
        r ∈ rows ∧ strLeB target r.createdAt = true) ∧
    (∀ (rows : List FactCheckRow) (target : String) (r : FactCheckRow),
      r ∈ rows → strLeB target r.createdAt = true →
      (rows.filter fun x => strLeB target x.createdAt).length ≤ 20 →
      r ∈ recentFactChecks rows target) ∧
    (∀ (rows : List WebpageAnalysisRow) (target : String) (r : WebpageAnalysisRow),
      r ∈ recentWebpageAnalyses rows target →
        r ∈ rows ∧ strLeB target r.analyzedAt = true) ∧
    (∀ (rows : List WebpageAnalysisRow) (target : String) (r : WebpageAnalysisRow),
      r ∈ rows → strLeB target r.analyzedAt = true →
      (rows.filter fun x => strLeB target x.analyzedAt).length ≤ 10 →
      r ∈ recentWebpageAnalyses rows target) := by
  refine ⟨?_, ?_, ?_, ?_⟩
  · intro rows target r h
    have h1 : r ∈ sortDescBy (fun x => x.createdAt)
        (rows.filter fun x => strLeB target x.createdAt) :=
      List.take_subset _ _ h
    have h2 := (mem_sortDescBy _ _ _).mp h1
    exact ⟨(List.mem_filter.mp h2).1, (List.mem_filter.mp h2).2⟩
  · intro rows target r hmem hle hlen
    have h1 : r ∈ rows.filter fun x => strLeB target x.createdAt :=
      List.mem_filter.mpr ⟨hmem, hle⟩
    have h2 : r ∈ sortDescBy (fun x => x.createdAt)
        (rows.filter fun x => strLeB target x.createdAt) :=
      (mem_sortDescBy _ _ _).mpr h1
    unfold recentFactChecks
    rw [List.take_of_length_le (by rw [length_sortDescBy]; exact hlen)]
    exact h2
  · intro rows target r h
    have h1 : r ∈ sortDescBy (fun x => x.analyzedAt)
        (rows.filter fun x => strLeB target x.analyzedAt) :=
      List.take_subset _ _ h
    have h2 := (mem_sortDescBy _ _ _).mp h1
    exact ⟨(List.mem_filter.mp h2).1, (List.mem_filter.mp h2).2⟩
  · intro rows target r hmem hle hlen
    have h1 : r ∈ rows.filter fun x => strLeB target x.analyzedAt :=
      List.mem_filter.mpr ⟨hmem, hle⟩
    have h2 : r ∈ sortDescBy (fun x => x.analyzedAt)
        (rows.filter fun x => strLeB target x.analyzedAt) :=
      (mem_sortDescBy _ _ _).mpr h1
    unfold recentWebpageAnalyses
    rw [List.take_of_length_le (by rw [length_sortDescBy]; exact hlen)]
    exact h2

/-- Witness for C9 (amended): a same-day record is aggregated, and a
next-day record is reported as on-or-after the target. -/
theorem claim_C9_amended_witness :
    (⟨"c", "true", 1, [], "r", "2024-01-01 09:00:00"⟩ : FactCheckRow) ∈
      recentFactChecks [⟨"c", "true", 1, [], "r", "2024-01-01 09:00:00"⟩] "2024-01-01" ∧
    ((⟨"c", "true", 1, [], "r", "2024-01-02 08:00:00"⟩ : FactCheckRow) ∈
        recentFactChecks [⟨"c", "true", 1, [], "r", "2024-01-02 08:00:00"⟩] "2024-01-01" →
      strLeB "2024-01-01" "2024-01-02 08:00:00" = true) :=
  ⟨claim_C9_amended.2.1 [⟨"c", "true", 1, [], "r", "2024-01-01 09:00:00"⟩]
      "2024-01-01" ⟨"c", "true", 1, [], "r", "2024-01-01 09:00:00"⟩
      (List.mem_cons_self _ _) (by decide) (by decide),
   fun h => (claim_C9_amended.1 [⟨"c", "true", 1, [], "r", "2024-01-02 08:00:00"⟩]
      "2024-01-01" ⟨"c", "true", 1, [], "r", "2024-01-02 08:00:00"⟩ h).2⟩

/-- C10: on a cache miss `analyze_webpage` fact-checks at most the first
three extracted claims: the stored and returned `fact_check_results` list
has length `min 3 (number of extracted claims)` and pairs off exactly the
first three claims in order, while `claims_extracted` records the full
extracted list, so claims beyond the first three get no per-claim verdict. -/
theorem claim_C10_fact_check_limit :
    (∀ (url : String) (webContent : WebpageContent) (ext : ClaimsExtraction)
        (envOf : String → AdapterEnv) (modelOf : String → ModelOutcome)
        (summaryText now : String),
      (mkWebpageAnalysisRow url webContent ext envOf modelOf summaryText
          now).factCheckResults.length = min 3 (extractedClaimsOf ext).length ∧
      (mkWebpageAnalysisRow url webContent ext envOf modelOf summaryText
          now).factCheckResults.map Prod.fst = (extractedClaimsOf ext).take 3 ∧
      (mkWebpageAnalysisRow url webContent ext envOf modelOf summaryText
          now).claimsExtracted = extractedClaimsOf ext) ∧
    (∀ (db : Database) (url : String) (focusAreas : Option (List String))
        (webContent : WebpageContent) (ext : ClaimsExtraction)
        (envOf : String → AdapterEnv) (modelOf : String → ModelOutcome)
        (summaryText now : String),
      findAnalysisByUrl db.webpageAnalyses url = none →
      (analyzeWebpageTool db url focusAreas (.ok webContent) (.ok ext) envOf modelOf
          (.ok summaryText) now).db.webpageAnalyses =
        db.webpageAnalyses ++
          [mkWebpageAnalysisRow url webContent ext envOf modelOf summaryText now] ∧
      (analyzeWebpageTool db url focusAreas (.ok webContent) (.ok ext) envOf modelOf
          (.ok summaryText) now).result =
        .ok (mkWebpageAnalysisRow url webContent ext envOf modelOf summaryText now)) := by
  constructor
  · intro url webContent ext envOf modelOf summaryText now
    refine ⟨?_, ?_, rfl⟩
    · simp [mkWebpageAnalysisRow, webpageFactCheckResults]
    · simp only [mkWebpageAnalysisRow, webpageFactCheckResults, List.map_map]
      have hid : (Prod.fst ∘ fun c => (c, verifyClaim c
          (some ("From webpage: " ++ webContent.title)) (envOf c) (modelOf c))) =
          fun c : String => c := rfl
      rw [hid, List.map_id']
  · intro db url focusAreas webContent ext envOf modelOf summaryText now h
    constructor
    · simp [analyzeWebpageTool, h, mkWebpageAnalysisRow]
    · simp [analyzeWebpageTool, h, mkWebpageAnalysisRow]

/-- Witness for C10: five extracted claims yield exactly three per-claim
results stored alongside all five extracted claims. -/
theorem claim_C10_fact_check_limit_witness :
    (analyzeWebpageTool ⟨[], [], []⟩ "https://w.example" none
      (.ok ⟨"T", "body", "https://w.example"⟩) (.ok (.arr ["a", "b", "c", "d", "e"]))
      (fun _ => ⟨.notOk, .notOk, .notOk, .notOk, .notOk, .notOk, .notOk, .notOk,
        .notOk, .notOk, .notOk, .notOk⟩) (fun _ => .malformed "") (.ok "sum")
      "t").db.webpageAnalyses =
      [mkWebpageAnalysisRow "https://w.example" ⟨"T", "body", "https://w.example"⟩
        (.arr ["a", "b", "c", "d", "e"])
        (fun _ => ⟨.notOk, .notOk, .notOk, .notOk, .notOk, .notOk, .notOk, .notOk,
          .notOk, .notOk, .notOk, .notOk⟩) (fun _ => .malformed "") "sum" "t"] :=
  (claim_C10_fact_check_limit.2 ⟨[], [], []⟩ "https://w.example" none
    ⟨"T", "body", "https://w.example"⟩ (.arr ["a", "b", "c", "d", "e"])
    (fun _ => ⟨.notOk, .notOk, .notOk, .notOk, .notOk, .notOk, .notOk, .notOk,
      .notOk, .notOk, .notOk, .notOk⟩) (fun _ => .malformed "") "sum" "t" rfl).1
